import Mathlib

/-!
Shallow embedding of the shading and light-transport core of the rtrace
path tracer (a Rust port of Yocto/GL), together with proofs about the
claims of its specification.

Modelling conventions
* Rust f32 scalars are modelled as exact real numbers; NaN and infinity do
  not exist in this model.  Real division by zero is 0 in Lean while Rust
  produces an infinity or NaN; theorems whose content depends on a division
  are stated away from the zero-denominator case, and the spots where the
  model can diverge from the float semantics are noted next to the
  definitions.
* Rust panics (out-of-bounds indexing, integer underflow on usize,
  f32 clamp with min greater than max, unwrap of None) are modelled with
  Option: a None result of an embedded function marks an execution on which
  the Rust program would abort.  Indexing whose validity is a documented
  data-model invariant of the scene (shape and material references) is
  modelled with getD and the theorems carry the corresponding in-range
  hypotheses.
* The i32 counters (bounce, samples) are modelled as unbounded integers;
  32-bit wraparound is never reached by any statement proved here.
* Per-pixel random generators are modelled as streams of reals indexed by a
  cursor that advances exactly at the draw sites of the source, in source
  order.
* The methods sample_transmittance, eval_transmittance,
  sample_transmittance_pdf, sample_scattering, eval_scattering and
  sample_scattering_pdf of MaterialPoint are called by trace.rs but their
  definitions are not part of the provided sources; they are modelled as
  unintepreted functions bundled in a record (see VolKernels below),
  following the interface the spec describes for the participating-media
  kernels.
-/

set_option maxHeartbeats 1000000

noncomputable section

/-- Two-component real vector (glm Vec2). -/
structure Vec2 where
  x : ℝ
  y : ℝ

/-- Three-component real vector (glm Vec3). -/
structure Vec3 where
  x : ℝ
  y : ℝ
  z : ℝ

/-- Four-component real vector (glm Vec4). -/
structure Vec4 where
  x : ℝ
  y : ℝ
  z : ℝ
  w : ℝ

instance : Inhabited Vec2 := ⟨⟨0, 0⟩⟩

instance : Inhabited Vec3 := ⟨⟨0, 0, 0⟩⟩

instance : Inhabited Vec4 := ⟨⟨0, 0, 0, 0⟩⟩

/-- zero2 macro. -/
def zero2 : Vec2 := ⟨0, 0⟩

/-- zero3 macro. -/
def zero3 : Vec3 := ⟨0, 0, 0⟩

/-- zero4 macro. -/
def zero4 : Vec4 := ⟨0, 0, 0, 0⟩

/-- one3 macro. -/
def one3 : Vec3 := ⟨1, 1, 1⟩

/-- one4 macro. -/
def one4 : Vec4 := ⟨1, 1, 1, 1⟩

instance : Add Vec2 := ⟨fun a b => ⟨a.x + b.x, a.y + b.y⟩⟩

instance : Add Vec3 := ⟨fun a b => ⟨a.x + b.x, a.y + b.y, a.z + b.z⟩⟩

instance : Add Vec4 := ⟨fun a b => ⟨a.x + b.x, a.y + b.y, a.z + b.z, a.w + b.w⟩⟩

instance : Sub Vec2 := ⟨fun a b => ⟨a.x - b.x, a.y - b.y⟩⟩

instance : Sub Vec3 := ⟨fun a b => ⟨a.x - b.x, a.y - b.y, a.z - b.z⟩⟩

instance : Neg Vec3 := ⟨fun a => ⟨-a.x, -a.y, -a.z⟩⟩

instance : HMul Vec3 ℝ Vec3 := ⟨fun a s => ⟨a.x * s, a.y * s, a.z * s⟩⟩

instance : HMul ℝ Vec3 Vec3 := ⟨fun s a => ⟨s * a.x, s * a.y, s * a.z⟩⟩

instance : HMul Vec4 ℝ Vec4 := ⟨fun a s => ⟨a.x * s, a.y * s, a.z * s, a.w * s⟩⟩

instance : HDiv Vec3 ℝ Vec3 := ⟨fun a s => ⟨a.x / s, a.y / s, a.z / s⟩⟩

instance : HDiv Vec4 ℝ Vec4 := ⟨fun a s => ⟨a.x / s, a.y / s, a.z / s, a.w / s⟩⟩

/-- Componentwise product of Vec3 (vec_comp_mul macro, nalgebra component_mul). -/
def cmul3 (a b : Vec3) : Vec3 := ⟨a.x * b.x, a.y * b.y, a.z * b.z⟩

/-- Componentwise quotient of Vec3 (vec_comp_div macro). -/
def cdiv3 (a b : Vec3) : Vec3 := ⟨a.x / b.x, a.y / b.y, a.z / b.z⟩

/-- Dot product of Vec3 (glm dot). -/
def dot3 (a b : Vec3) : ℝ := a.x * b.x + a.y * b.y + a.z * b.z

/-- Cross product of Vec3 (glm cross). -/
def cross3 (a b : Vec3) : Vec3 :=
  ⟨a.y * b.z - a.z * b.y, a.z * b.x - a.x * b.z, a.x * b.y - a.y * b.x⟩

/-- Maximum component of a Vec3 (nalgebra max, used on the throughput weight). -/
def Vec3.vmax (a : Vec3) : ℝ := max a.x (max a.y a.z)

/-- Maximum component of a Vec4 (nalgebra max, used on the radiance sample). -/
def Vec4.vmax (a : Vec4) : ℝ := max a.x (max a.y (max a.z a.w))

/-- Euclidean norm (glm length). -/
def norm3 (a : Vec3) : ℝ := Real.sqrt (dot3 a a)

/-- glm normalize; the Rust code yields NaN on the zero vector, the model
yields the zero vector there (real division by zero). -/
def normalize3 (a : Vec3) : Vec3 := a / norm3 a

/-- Componentwise square root (glm sqrt on a Vec3). -/
def vsqrt3 (a : Vec3) : Vec3 := ⟨Real.sqrt a.x, Real.sqrt a.y, Real.sqrt a.z⟩

/-- Componentwise natural logarithm (glm log on a Vec3). -/
def vlog3 (a : Vec3) : Vec3 := ⟨Real.log a.x, Real.log a.y, Real.log a.z⟩

/-- Componentwise clamp of a Vec3 (glm clamp). -/
def vclamp3 (a : Vec3) (lo hi : ℝ) : Vec3 :=
  ⟨max lo (min a.x hi), max lo (min a.y hi), max lo (min a.z hi)⟩

/-- glm lerp on Vec3. -/
def vlerp3 (a b : Vec3) (t : ℝ) : Vec3 := a + (b - a) * t

/-- First three components of a Vec4 (nalgebra xyz swizzle). -/
def Vec4.xyz (a : Vec4) : Vec3 := ⟨a.x, a.y, a.z⟩

/-- Promote a Vec3 to a Vec4 with a zero last component (glm vec3_to_vec4). -/
def vec3_to_vec4 (a : Vec3) : Vec4 := ⟨a.x, a.y, a.z, 0⟩

/-- f32 clamp for min below max; the Rust method panics when min exceeds max,
call sites where that can happen are modelled with Option. -/
def rustClamp (x lo hi : ℝ) : ℝ := max lo (min x hi)

/-- Truncation toward zero, the rounding of the Rust as-cast between floats
and integers. -/
def rustTrunc (z : ℝ) : ℤ := if 0 ≤ z then ⌊z⌋ else ⌈z⌉

/-- Saturating f32 to usize as-cast: truncate toward zero, negative values
saturate to 0 (the upper saturation bound is never reached here). -/
def f32_to_usize (x : ℝ) : ℕ := (⌊x⌋).toNat

/-- Rust f32 remainder, truncated division convention. -/
def rustRem (x y : ℝ) : ℝ := x - y * (rustTrunc (x / y) : ℝ)

/-- f32 machine epsilon, the glm epsilon used by is_null. -/
def f32Epsilon : ℝ := 1 / 8388608

/-- Largest finite f32, the default ray tmax. -/
def f32Max : ℝ := (2 - 1 / 8388608) * 2 ^ (127 : ℕ)

/-- nalgebra-glm is_null: the norm is below the given epsilon. -/
def is_null (v : Vec3) (eps : ℝ) : Prop := norm3 v < eps

instance (v : Vec3) (eps : ℝ) : Decidable (is_null v eps) := by
  unfold is_null; infer_instance

/-- utils.rs is_finite; every model value is finite, kept so that the guard
of the integrator loop reads like the source. -/
def is_finite3 (_ : Vec3) : Prop := True

instance (v : Vec3) : Decidable (is_finite3 v) := by
  unfold is_finite3; infer_instance

/-- Column-major 3x3 matrix (glm Mat3), stored as its three columns. -/
structure Mat3 where
  c0 : Vec3
  c1 : Vec3
  c2 : Vec3

/-- Affine frame: 3x4 matrix (glm Mat3x4) as rotation columns plus origin. -/
structure Mat3x4 where
  c0 : Vec3
  c1 : Vec3
  c2 : Vec3
  c3 : Vec3

/-- Identity frame, the Default of Instance, Environment and Camera frames. -/
def idFrame : Mat3x4 := ⟨⟨1, 0, 0⟩, ⟨0, 1, 0⟩, ⟨0, 0, 1⟩, ⟨0, 0, 0⟩⟩

instance : Inhabited Mat3x4 := ⟨idFrame⟩

/-- utils.rs transform_point. -/
def transform_point (a : Mat3x4) (b : Vec3) : Vec3 :=
  a.c0 * b.x + a.c1 * b.y + a.c2 * b.z + a.c3

/-- utils.rs transform_vector_frame. -/
def transform_vector_frame (a : Mat3x4) (b : Vec3) : Vec3 :=
  a.c0 * b.x + a.c1 * b.y + a.c2 * b.z

/-- utils.rs transform_direction_frame. -/
def transform_direction_frame (a : Mat3x4) (b : Vec3) : Vec3 :=
  normalize3 (transform_vector_frame a b)

/-- utils.rs transform_vector_mat. -/
def transform_vector_mat (a : Mat3) (b : Vec3) : Vec3 :=
  a.c0 * b.x + a.c1 * b.y + a.c2 * b.z

/-- utils.rs transform_direction_mat. -/
def transform_direction_mat (a : Mat3) (b : Vec3) : Vec3 :=
  normalize3 (transform_vector_mat a b)

/-- 3x3 matrix transpose on the column representation. -/
def mat3Transpose (a : Mat3) : Mat3 :=
  ⟨⟨a.c0.x, a.c1.x, a.c2.x⟩, ⟨a.c0.y, a.c1.y, a.c2.y⟩, ⟨a.c0.z, a.c1.z, a.c2.z⟩⟩

/-- 3x3 matrix inverse by the adjugate formula (glm inverse); the model
returns the zero division results on a singular matrix as real division by
zero. -/
def mat3Inverse (a : Mat3) : Mat3 :=
  let det := dot3 a.c0 (cross3 a.c1 a.c2)
  ⟨cross3 a.c1 a.c2 / det, cross3 a.c2 a.c0 / det, cross3 a.c0 a.c1 / det⟩

/-- Rotation part of a frame as a 3x3 matrix. -/
def frameRotation (a : Mat3x4) : Mat3 := ⟨a.c0, a.c1, a.c2⟩

/-- utils.rs transform_normal_frame. -/
def transform_normal_frame (a : Mat3x4) (b : Vec3) (non_rigid : Bool) : Vec3 :=
  if non_rigid then
    normalize3 (transform_vector_mat (mat3Transpose (mat3Inverse (frameRotation a))) b)
  else
    normalize3 (transform_vector_frame a b)

/-- utils.rs inverse_frame. -/
def inverse_frame (frame : Mat3x4) (non_rigid : Bool) : Mat3x4 :=
  let rotation := frameRotation frame
  if non_rigid then
    let minv := mat3Inverse rotation
    ⟨minv.c0, minv.c1, minv.c2, -(transform_vector_mat minv frame.c3)⟩
  else
    let minv := mat3Transpose rotation
    ⟨minv.c0, minv.c1, minv.c2, -(transform_vector_mat minv frame.c3)⟩

/-- utils.rs orthonormalize. -/
def orthonormalize (a b : Vec3) : Vec3 := normalize3 (a - b * dot3 a b)

/-- utils.rs basis_fromz; copysign of a nonnegative mantissa is the sign of
the second argument (the float minus-zero case does not exist in the
model). -/
def basis_fromz (normal : Vec3) : Mat3 :=
  let z := normalize3 normal
  let sign : ℝ := if z.z < 0 then -1 else 1
  let a := -1 / (sign + z.z)
  let b := z.x * z.y * a
  let x : Vec3 := ⟨1 + sign * z.x * z.x * a, sign * b, -sign * z.x⟩
  let y : Vec3 := ⟨b, sign + z.y * z.y * a, -z.y⟩
  ⟨x, y, z⟩

/-- utils.rs interpolate_line, for Vec2 attributes. -/
def interpolate_line2 (p0 p1 : Vec2) (u : ℝ) : Vec2 :=
  ⟨p0.x * (1 - u) + p1.x * u, p0.y * (1 - u) + p1.y * u⟩

/-- utils.rs interpolate_line, for Vec3 attributes. -/
def interpolate_line3 (p0 p1 : Vec3) (u : ℝ) : Vec3 := p0 * (1 - u) + p1 * u

/-- utils.rs interpolate_line, for Vec4 attributes. -/
def interpolate_line4 (p0 p1 : Vec4) (u : ℝ) : Vec4 := p0 * (1 - u) + p1 * u

/-- utils.rs interpolate_triangle, for Vec2 attributes. -/
def interpolate_triangle2 (p0 p1 p2 : Vec2) (uv : Vec2) : Vec2 :=
  ⟨p0.x * (1 - uv.x - uv.y) + p1.x * uv.x + p2.x * uv.y,
   p0.y * (1 - uv.x - uv.y) + p1.y * uv.x + p2.y * uv.y⟩

/-- utils.rs interpolate_triangle, for Vec3 attributes. -/
def interpolate_triangle3 (p0 p1 p2 : Vec3) (uv : Vec2) : Vec3 :=
  p0 * (1 - uv.x - uv.y) + p1 * uv.x + p2 * uv.y

/-- utils.rs interpolate_triangle, for Vec4 attributes. -/
def interpolate_triangle4 (p0 p1 p2 : Vec4) (uv : Vec2) : Vec4 :=
  p0 * (1 - uv.x - uv.y) + p1 * uv.x + p2 * uv.y

/-- utils.rs interpolate_quad, for Vec2 attributes. -/
def interpolate_quad2 (p0 p1 p2 p3 : Vec2) (uv : Vec2) : Vec2 :=
  if uv.x + uv.y ≤ 1 then interpolate_triangle2 p0 p1 p3 uv
  else interpolate_triangle2 p2 p3 p1 ⟨1 - uv.x, 1 - uv.y⟩

/-- utils.rs interpolate_quad, for Vec3 attributes. -/
def interpolate_quad3 (p0 p1 p2 p3 : Vec3) (uv : Vec2) : Vec3 :=
  if uv.x + uv.y ≤ 1 then interpolate_triangle3 p0 p1 p3 uv
  else interpolate_triangle3 p2 p3 p1 ⟨1 - uv.x, 1 - uv.y⟩

/-- utils.rs interpolate_quad, for Vec4 attributes. -/
def interpolate_quad4 (p0 p1 p2 p3 : Vec4) (uv : Vec2) : Vec4 :=
  if uv.x + uv.y ≤ 1 then interpolate_triangle4 p0 p1 p3 uv
  else interpolate_triangle4 p2 p3 p1 ⟨1 - uv.x, 1 - uv.y⟩

/-- utils.rs triangle_area. -/
def triangle_area (p0 p1 p2 : Vec3) : ℝ := norm3 (cross3 (p1 - p0) (p2 - p0)) / 2

/-- utils.rs quad_area. -/
def quad_area (p0 p1 p2 p3 : Vec3) : ℝ :=
  triangle_area p0 p1 p3 + triangle_area p2 p3 p1

/-- utils.rs line_tangent. -/
def line_tangent (p0 p1 : Vec3) : Vec3 := normalize3 (p1 - p0)

/-- utils.rs triangle_normal. -/
def triangle_normal (p0 p1 p2 : Vec3) : Vec3 := normalize3 (cross3 (p1 - p0) (p2 - p0))

/-- utils.rs quad_normal. -/
def quad_normal (p0 p1 p2 p3 : Vec3) : Vec3 :=
  normalize3 (triangle_normal p0 p1 p3 + triangle_normal p2 p3 p1)

/-- utils.rs sample_disk. -/
def sample_disk (ruv : Vec2) : Vec2 :=
  let r := Real.sqrt ruv.y
  let phi := 2 * Real.pi * ruv.x
  ⟨Real.cos phi * r, Real.sin phi * r⟩

/-- utils.rs mean3. -/
def mean3 (v : Vec3) : ℝ := (v.x + v.y + v.z) / 3

/-- f32 powf via the real power function. -/
def rustPowf (x y : ℝ) : ℝ := Real.rpow x y

/-- utils.rs srgb_to_rgb, one channel. -/
def compute_srgb (srgb : ℝ) : ℝ :=
  if srgb ≤ 0.04045 then srgb / 12.92 else rustPowf ((srgb + 0.055) / (1 + 0.055)) 2.4

/-- utils.rs srgb_to_rgb. -/
def srgb_to_rgb (color : Vec4) : Vec4 :=
  ⟨compute_srgb color.x, compute_srgb color.y, compute_srgb color.z, compute_srgb color.w⟩

/-- glm reflect_vec (GLSL reflect). -/
def reflect_vec (i n : Vec3) : Vec3 := i - n * (2 * dot3 n i)

/-- glm refract_vec (GLSL refract). -/
def refract_vec (i n : Vec3) (eta : ℝ) : Vec3 :=
  let k := 1 - eta * eta * (1 - dot3 n i * dot3 n i)
  if k < 0 then zero3 else i * eta - n * (eta * dot3 n i + Real.sqrt k)

/-- f32 atan2 via arctan with the quadrant case split. -/
def rustAtan2 (y x : ℝ) : ℝ :=
  if 0 < x then Real.arctan (y / x)
  else if x < 0 then
    (if 0 ≤ y then Real.arctan (y / x) + Real.pi else Real.arctan (y / x) - Real.pi)
  else (if 0 < y then Real.pi / 2 else if y < 0 then -(Real.pi / 2) else 0)

/-- Material family tag (scene_components.rs MaterialType). -/
inductive MaterialType where
  | Matte
  | Glossy
  | Reflective
  | Transparent
  | Refractive
  | Volumetric
  | Subsurface
  | Gltfpbr
deriving DecidableEq

/-- Resolved material at one shading point (shading.rs MaterialPoint). -/
structure MaterialPoint where
  m_type : MaterialType
  emission : Vec3
  color : Vec3
  roughness : ℝ
  metallic : ℝ
  ior : ℝ
  density : Vec3
  scattering : Vec3
  scanisotropy : ℝ
  trdepth : ℝ
  opacity : ℝ

/-- Default MaterialPoint (shading.rs Default impl). -/
def MaterialPoint.default : MaterialPoint :=
  { m_type := .Matte, emission := zero3, color := zero3, roughness := 0,
    metallic := 0, ior := 1, density := zero3, scattering := zero3,
    scanisotropy := 0, trdepth := 0.01, opacity := 1 }

instance : Inhabited MaterialPoint := ⟨MaterialPoint.default⟩

/-- shading.rs reflectivity_to_eta. -/
def reflectivity_to_eta (reflectivity : Vec3) : Vec3 :=
  let r_clamp := vclamp3 reflectivity 0 0.99
  cdiv3 (one3 + vsqrt3 r_clamp) (one3 - vsqrt3 r_clamp)

/-- shading.rs eta_to_reflectivity. -/
def eta_to_reflectivity (eta : Vec3) : Vec3 :=
  cdiv3 (cmul3 (eta - one3) (eta - one3)) (cmul3 (eta + one3) (eta + one3))

/-- shading.rs sample_hemisphere_cos. -/
def sample_hemisphere_cos (normal : Vec3) (rn : Vec2) : Vec3 :=
  let z := Real.sqrt rn.y
  let r := Real.sqrt (1 - z * z)
  let phi := 2 * Real.pi * rn.x
  let local_direction : Vec3 := ⟨r * Real.cos phi, r * Real.sin phi, z⟩
  transform_direction_mat (basis_fromz normal) local_direction

/-- shading.rs sample_hemisphere_cos_pdf. -/
def sample_hemisphere_cos_pdf (normal incoming : Vec3) : ℝ :=
  let cosw := dot3 normal incoming
  if cosw ≤ 0 then 0 else cosw / Real.pi

/-- shading.rs fresnel_schlick. -/
def fresnel_schlick (specular normal outgoing : Vec3) : Vec3 :=
  if is_null specular f32Epsilon then zero3
  else
    let cosine := dot3 normal outgoing
    specular + (one3 - specular) * rustPowf (rustClamp (1 - |cosine|) 0 1) 5

/-- shading.rs fresnel_dielectric. -/
def fresnel_dielectric (eta : ℝ) (normal outgoing : Vec3) : ℝ :=
  let cosw := |dot3 normal outgoing|
  let sin2 := 1 - cosw * cosw
  let eta2 := eta * eta
  let cos2t := 1 - sin2 / eta2
  if cos2t < 0 then 1
  else
    let t0 := Real.sqrt cos2t
    let t1 := eta * t0
    let t2 := eta * cosw
    let rs := (cosw - t1) / (cosw + t1)
    let rp := (t0 - t2) / (t0 + t2)
    (rs * rs + rp * rp) / 2

/-- shading.rs fresnel_conductor. -/
def fresnel_conductor (eta etak normal outgoing : Vec3) : Vec3 :=
  let cosw0 := dot3 normal outgoing
  if cosw0 ≤ 0 then zero3
  else
    let cosw := rustClamp cosw0 (-1) 1
    let cos2 := cosw * cosw
    let sin2 := rustClamp (1 - cos2) 0 1
    let eta2 := cmul3 eta eta
    let etak2 := cmul3 etak etak
    let t0 := eta2 - etak2 - (⟨-sin2, -sin2, -sin2⟩ : Vec3)
    let a2plusb2 := vsqrt3 (cmul3 t0 t0 + (4 : ℝ) * cmul3 eta2 etak2)
    let t1 := a2plusb2 + (⟨cos2, cos2, cos2⟩ : Vec3)
    let a := vsqrt3 ((a2plusb2 + t0) / (2 : ℝ))
    let t2 := (2 : ℝ) * a * cosw
    let rs := cdiv3 (t1 - t2) (t1 + t2)
    let t3 := cos2 * a2plusb2 + (⟨sin2 * sin2, sin2 * sin2, sin2 * sin2⟩ : Vec3)
    let t4 := t2 * sin2
    let rp := cmul3 rs (cdiv3 (t3 - t4) (t3 + t4))
    (rp + rs) / (2 : ℝ)

/-- shading.rs microfacet_shadowing1. -/
def microfacet_shadowing1 (roughness : ℝ) (normal halfway direction : Vec3) (ggx : Bool) : ℝ :=
  let cosine := dot3 normal direction
  let cosineh := dot3 halfway direction
  if cosine * cosineh ≤ 0 then 0
  else
    let roughness2 := roughness * roughness
    let cosine2 := cosine * cosine
    if ggx then
      2 * |cosine| / (|cosine| + Real.sqrt (cosine2 - roughness2 * cosine2 + roughness2))
    else
      let ci := |cosine| / (roughness * Real.sqrt (1 - cosine2))
      if ci < 1.6 then (3.535 * ci + 2.181 * ci * ci) / (1 + 2.276 * ci + 2.577 * ci * ci)
      else 1

/-- shading.rs microfacet_shadowing. -/
def microfacet_shadowing (roughness : ℝ) (normal halfway outgoing incoming : Vec3) : ℝ :=
  microfacet_shadowing1 roughness normal halfway outgoing true *
    microfacet_shadowing1 roughness normal halfway incoming true

/-- shading.rs microfacet_distribution. -/
def microfacet_distribution (roughness : ℝ) (normal halfway : Vec3) (ggx : Bool) : ℝ :=
  let cosine := dot3 normal halfway
  if cosine ≤ 0 then 0
  else
    let roughness2 := roughness * roughness
    let cosine2 := cosine * cosine
    if ggx then
      roughness2 /
        (Real.pi * (cosine2 * roughness2 + 1 - cosine2) * (cosine2 * roughness2 + 1 - cosine2))
    else
      Real.exp ((cosine2 - 1) / (roughness2 * cosine2)) /
        (Real.pi * roughness2 * cosine2 * cosine2)

/-- shading.rs same_hemisphere. -/
def same_hemisphere (normal outgoing incoming : Vec3) : Prop :=
  0 ≤ dot3 normal outgoing * dot3 normal incoming

instance (normal outgoing incoming : Vec3) : Decidable (same_hemisphere normal outgoing incoming) := by
  unfold same_hemisphere; infer_instance

/-- shading.rs sample_microfacet. -/
def sample_microfacet (roughness : ℝ) (normal : Vec3) (rn : Vec2) (ggx : Bool) : Vec3 :=
  let phi := 2 * Real.pi * rn.x
  let roughness2 := roughness * roughness
  let theta :=
    if ggx then Real.arctan (roughness * Real.sqrt (rn.y / (1 - rn.y)))
    else Real.arctan (Real.sqrt (-roughness2 * Real.log (1 - rn.y)))
  let local_half_vector : Vec3 :=
    ⟨Real.cos phi * Real.sin theta, Real.sin phi * Real.sin theta, Real.cos theta⟩
  transform_direction_mat (basis_fromz normal) local_half_vector

/-- shading.rs sample_microfacet_pdf. -/
def sample_microfacet_pdf (roughness : ℝ) (normal halfway : Vec3) : ℝ :=
  let cosine := dot3 normal halfway
  if cosine < 0 then 0 else microfacet_distribution roughness normal halfway true * cosine

/-- The up-facing normal choice shared by every family of shading.rs:
negate the normal when the outgoing direction is on its back side. -/
def upNormal (normal outgoing : Vec3) : Vec3 :=
  if dot3 normal outgoing ≤ 0 then -normal else normal

/-- shading.rs MaterialPoint eval_emission. -/
def MaterialPoint.eval_emission (m : MaterialPoint) (normal outgoing : Vec3) : Vec3 :=
  if 0 ≤ dot3 normal outgoing then m.emission else zero3

/-- shading.rs sample_matte. -/
def MaterialPoint.sample_matte (_ : MaterialPoint) (normal outgoing : Vec3) (rn : Vec2) : Vec3 :=
  sample_hemisphere_cos (upNormal normal outgoing) rn

/-- shading.rs eval_matte. -/
def MaterialPoint.eval_matte (m : MaterialPoint) (normal outgoing incoming : Vec3) : Vec3 :=
  if dot3 normal incoming * dot3 normal outgoing ≤ 0 then zero3
  else m.color / Real.pi * |dot3 normal incoming|

/-- shading.rs sample_matte_pdf. -/
def MaterialPoint.sample_matte_pdf (_ : MaterialPoint) (normal outgoing incoming : Vec3) : ℝ :=
  if dot3 normal incoming * dot3 normal outgoing ≤ 0 then 0
  else sample_hemisphere_cos_pdf (upNormal normal outgoing) incoming

/-- shading.rs sample_glossy. -/
def MaterialPoint.sample_glossy (m : MaterialPoint) (normal outgoing : Vec3) (rnl : ℝ)
    (rn : Vec2) : Vec3 :=
  let up_normal := upNormal normal outgoing
  if rnl < fresnel_dielectric m.ior up_normal outgoing then
    let halfway := sample_microfacet m.roughness up_normal rn true
    let incoming := reflect_vec (-outgoing) halfway
    if ¬ same_hemisphere up_normal outgoing incoming then zero3 else incoming
  else sample_hemisphere_cos up_normal rn

/-- shading.rs eval_glossy. -/
def MaterialPoint.eval_glossy (m : MaterialPoint) (normal outgoing incoming : Vec3) : Vec3 :=
  if dot3 normal incoming * dot3 normal outgoing ≤ 0 then zero3
  else
    let up_normal := upNormal normal outgoing
    let f1 := fresnel_dielectric m.ior up_normal outgoing
    let halfway := normalize3 (incoming + outgoing)
    let f := fresnel_dielectric m.ior halfway incoming
    let d := microfacet_distribution m.roughness up_normal halfway true
    let g := microfacet_shadowing m.roughness up_normal halfway outgoing incoming
    m.color * (1 - f1) / Real.pi * |dot3 up_normal incoming| +
      one3 * f * d * g / (4 * dot3 up_normal outgoing * dot3 up_normal incoming) *
        |dot3 up_normal incoming|

/-- shading.rs sample_glossy_pdf; note the absence of the hemisphere guard
that the other reflective families have. -/
def MaterialPoint.sample_glossy_pdf (m : MaterialPoint) (normal outgoing incoming : Vec3) : ℝ :=
  let up_normal := upNormal normal outgoing
  let halfway := normalize3 (outgoing + incoming)
  let f := fresnel_dielectric m.ior up_normal outgoing
  f * sample_microfacet_pdf m.roughness up_normal halfway / (4 * |dot3 outgoing halfway|) +
    (1 - f) * sample_hemisphere_cos_pdf up_normal incoming

/-- shading.rs sample_reflective. -/
def MaterialPoint.sample_reflective (m : MaterialPoint) (normal outgoing : Vec3)
    (rn : Vec2) : Vec3 :=
  let up_normal := upNormal normal outgoing
  let halfway := sample_microfacet m.roughness up_normal rn true
  let incoming := reflect_vec (-outgoing) halfway
  if ¬ same_hemisphere up_normal outgoing incoming then zero3 else incoming

/-- shading.rs sample_reflective_delta. -/
def MaterialPoint.sample_reflective_delta (_ : MaterialPoint) (normal outgoing : Vec3) : Vec3 :=
  reflect_vec (-outgoing) (upNormal normal outgoing)

/-- shading.rs eval_reflective. -/
def MaterialPoint.eval_reflective (m : MaterialPoint) (normal outgoing incoming : Vec3) : Vec3 :=
  if dot3 normal incoming * dot3 normal outgoing ≤ 0 then zero3
  else
    let up_normal := upNormal normal outgoing
    let halfway := normalize3 (incoming + outgoing)
    let f := fresnel_conductor (reflectivity_to_eta m.color) zero3 halfway incoming
    let d := microfacet_distribution m.roughness up_normal halfway true
    let g := microfacet_shadowing m.roughness up_normal halfway outgoing incoming
    f * d * g / (4 * dot3 up_normal outgoing * dot3 up_normal incoming) *
      |dot3 up_normal incoming|

/-- shading.rs eval_reflective_delta. -/
def MaterialPoint.eval_reflective_delta (m : MaterialPoint)
    (normal outgoing incoming : Vec3) : Vec3 :=
  if dot3 normal incoming * dot3 normal outgoing ≤ 0 then zero3
  else fresnel_conductor (reflectivity_to_eta m.color) zero3 (upNormal normal outgoing) outgoing

/-- shading.rs sample_reflective_pdf. -/
def MaterialPoint.sample_reflective_pdf (m : MaterialPoint)
    (normal outgoing incoming : Vec3) : ℝ :=
  if dot3 normal incoming * dot3 normal outgoing ≤ 0 then 0
  else
    let up_normal := upNormal normal outgoing
    let halfway := normalize3 (outgoing + incoming)
    sample_microfacet_pdf m.roughness up_normal halfway / (4 * |dot3 outgoing halfway|)

/-- shading.rs sample_reflective_pdf_delta. -/
def MaterialPoint.sample_reflective_pdf_delta (_ : MaterialPoint)
    (normal outgoing incoming : Vec3) : ℝ :=
  if dot3 normal incoming * dot3 normal outgoing ≤ 0 then 0 else 1

/-- shading.rs sample_transparent. -/
def MaterialPoint.sample_transparent (m : MaterialPoint) (normal outgoing : Vec3) (rnl : ℝ)
    (rn : Vec2) : Vec3 :=
  let up_normal := upNormal normal outgoing
  let halfway := sample_microfacet m.roughness up_normal rn true
  if rnl < fresnel_dielectric m.ior halfway outgoing then
    let incoming := reflect_vec (-outgoing) halfway
    if ¬ same_hemisphere up_normal outgoing incoming then zero3 else incoming
  else
    let reflected := reflect_vec (-outgoing) halfway
    let incoming := -(reflect_vec (-reflected) up_normal)
    if same_hemisphere up_normal outgoing incoming then zero3 else incoming

/-- shading.rs sample_transparent_delta. -/
def MaterialPoint.sample_transparent_delta (m : MaterialPoint) (normal outgoing : Vec3)
    (rnl : ℝ) : Vec3 :=
  let up_normal := upNormal normal outgoing
  if rnl < fresnel_dielectric m.ior up_normal outgoing then reflect_vec (-outgoing) up_normal
  else -outgoing

/-- shading.rs eval_transparent. -/
def MaterialPoint.eval_transparent (m : MaterialPoint) (normal outgoing incoming : Vec3) : Vec3 :=
  let up_normal := upNormal normal outgoing
  if 0 ≤ dot3 normal incoming * dot3 normal outgoing then
    let halfway := normalize3 (incoming + outgoing)
    let f := fresnel_dielectric m.ior halfway outgoing
    let d := microfacet_distribution m.roughness up_normal halfway true
    let g := microfacet_shadowing m.roughness up_normal halfway outgoing incoming
    one3 * f * d * g / (4 * dot3 up_normal outgoing * dot3 up_normal incoming) *
      |dot3 up_normal incoming|
  else
    let reflected := reflect_vec incoming up_normal
    let halfway := normalize3 (reflected + outgoing)
    let f := fresnel_dielectric m.ior halfway outgoing
    let d := microfacet_distribution m.roughness up_normal halfway true
    let g := microfacet_shadowing m.roughness up_normal halfway outgoing reflected
    m.color * (1 - f) * d * g / (4 * dot3 up_normal outgoing * dot3 up_normal reflected) *
      |dot3 up_normal reflected|

/-- shading.rs eval_transparent_delta. -/
def MaterialPoint.eval_transparent_delta (m : MaterialPoint)
    (normal outgoing incoming : Vec3) : Vec3 :=
  let up_normal := upNormal normal outgoing
  if 0 ≤ dot3 normal incoming * dot3 normal outgoing then
    one3 * fresnel_dielectric m.ior up_normal outgoing
  else m.color * (1 - fresnel_dielectric m.ior up_normal outgoing)

/-- shading.rs sample_transparent_pdf. -/
def MaterialPoint.sample_transparent_pdf (m : MaterialPoint)
    (normal outgoing incoming : Vec3) : ℝ :=
  let up_normal := upNormal normal outgoing
  if 0 ≤ dot3 normal incoming * dot3 normal outgoing then
    let halfway := normalize3 (incoming + outgoing)
    fresnel_dielectric m.ior halfway outgoing *
      sample_microfacet_pdf m.roughness up_normal halfway / (4 * |dot3 outgoing halfway|)
  else
    let reflected := reflect_vec incoming up_normal
    let halfway := normalize3 (reflected + outgoing)
    let d := (1 - fresnel_dielectric m.ior halfway outgoing) *
      sample_microfacet_pdf m.roughness up_normal halfway
    d / (4 * |dot3 outgoing halfway|)

/-- shading.rs sample_transparent_pdf_delta. -/
def MaterialPoint.sample_transparent_pdf_delta (m : MaterialPoint)
    (normal outgoing incoming : Vec3) : ℝ :=
  let up_normal := upNormal normal outgoing
  if 0 ≤ dot3 normal incoming * dot3 normal outgoing then
    fresnel_dielectric m.ior up_normal outgoing
  else 1 - fresnel_dielectric m.ior up_normal outgoing

/-- shading.rs sample_refractive. -/
def MaterialPoint.sample_refractive (m : MaterialPoint) (normal outgoing : Vec3) (rnl : ℝ)
    (rn : Vec2) : Vec3 :=
  let entering := 0 ≤ dot3 normal outgoing
  let up_normal := upNormal normal outgoing
  let halfway := sample_microfacet m.roughness up_normal rn true
  let rel_ior := if entering then m.ior else 1 / m.ior
  if rnl < fresnel_dielectric rel_ior halfway outgoing then
    let incoming := reflect_vec (-outgoing) halfway
    if ¬ same_hemisphere up_normal outgoing incoming then zero3 else incoming
  else
    let incoming := refract_vec (-outgoing) halfway rel_ior
    if ¬ same_hemisphere up_normal outgoing incoming then zero3 else incoming

/-- shading.rs sample_refractive_delta. -/
def MaterialPoint.sample_refractive_delta (m : MaterialPoint) (normal outgoing : Vec3)
    (rnl : ℝ) : Vec3 :=
  if |m.ior - 1| < 0.001 then -outgoing
  else
    let entering := 0 ≤ dot3 normal outgoing
    let up_normal := upNormal normal outgoing
    let rel_ior := if entering then m.ior else 1 / m.ior
    if rnl < fresnel_dielectric rel_ior up_normal outgoing then
      reflect_vec (-outgoing) up_normal
    else refract_vec (-outgoing) up_normal (1 / rel_ior)

/-- shading.rs eval_refractive. -/
def MaterialPoint.eval_refractive (m : MaterialPoint) (normal outgoing incoming : Vec3) : Vec3 :=
  let entering := 0 ≤ dot3 normal outgoing
  let up_normal := upNormal normal outgoing
  let rel_ior := if entering then m.ior else 1 / m.ior
  if 0 ≤ dot3 normal incoming * dot3 normal outgoing then
    let halfway := normalize3 (incoming + outgoing)
    let f := fresnel_dielectric rel_ior halfway outgoing
    let d := microfacet_distribution m.roughness up_normal halfway true
    let g := microfacet_shadowing m.roughness up_normal halfway outgoing incoming
    one3 * f * d * g / |4 * dot3 normal outgoing * dot3 normal incoming| *
      |dot3 normal incoming|
  else
    let rel_sign : ℝ := if entering then 1 else -1
    let halfway := -(normalize3 (rel_ior * incoming + outgoing)) * rel_sign
    let f := fresnel_dielectric rel_ior halfway outgoing
    let d := microfacet_distribution m.roughness up_normal halfway true
    let g := microfacet_shadowing m.roughness up_normal halfway outgoing incoming
    one3 *
        |dot3 outgoing halfway * dot3 incoming halfway /
          (dot3 outgoing normal * dot3 incoming normal)| *
        (1 - f) * d * g /
        rustPowf (rel_ior * dot3 halfway incoming + dot3 halfway outgoing) 2 *
      |dot3 normal incoming|

/-- shading.rs eval_refractive_delta. -/
def MaterialPoint.eval_refractive_delta (m : MaterialPoint)
    (normal outgoing incoming : Vec3) : Vec3 :=
  if |m.ior - 1| < 0.001 then
    if dot3 normal incoming * dot3 normal outgoing ≤ 0 then one3 else zero3
  else
    let entering := 0 ≤ dot3 normal outgoing
    let up_normal := upNormal normal outgoing
    let rel_ior := if entering then m.ior else 1 / m.ior
    if 0 ≤ dot3 normal incoming * dot3 normal outgoing then
      one3 * fresnel_dielectric rel_ior up_normal outgoing
    else
      one3 * (1 / (rel_ior * rel_ior)) * (1 - fresnel_dielectric rel_ior up_normal outgoing)

/-- shading.rs sample_refractive_pdf. -/
def MaterialPoint.sample_refractive_pdf (m : MaterialPoint)
    (normal outgoing incoming : Vec3) : ℝ :=
  let entering := 0 ≤ dot3 normal outgoing
  let up_normal := upNormal normal outgoing
  let rel_ior := if entering then m.ior else 1 / m.ior
  if 0 ≤ dot3 normal incoming * dot3 normal outgoing then
    let halfway := normalize3 (incoming + outgoing)
    fresnel_dielectric rel_ior halfway outgoing *
      sample_microfacet_pdf m.roughness up_normal halfway / (4 * |dot3 outgoing halfway|)
  else
    let rel_sign : ℝ := if entering then 1 else -1
    let halfway := -(normalize3 (rel_ior * incoming + outgoing)) * rel_sign
    (1 - fresnel_dielectric rel_ior halfway outgoing) *
        sample_microfacet_pdf m.roughness up_normal halfway * |dot3 halfway incoming| /
      rustPowf (rel_ior * dot3 halfway incoming + dot3 halfway outgoing) 2

/-- shading.rs sample_refractive_pdf_delta. -/
def MaterialPoint.sample_refractive_pdf_delta (m : MaterialPoint)
    (normal outgoing incoming : Vec3) : ℝ :=
  if |m.ior - 1| < 0.001 then
    if dot3 normal incoming * dot3 normal outgoing ≤ 0 then 1 else 0
  else
    let entering := 0 ≤ dot3 normal outgoing
    let up_normal := upNormal normal outgoing
    let rel_ior := if entering then m.ior else 1 / m.ior
    if 0 ≤ dot3 normal incoming * dot3 normal outgoing then
      fresnel_dielectric rel_ior up_normal outgoing
    else 1 - fresnel_dielectric rel_ior up_normal outgoing

/-- shading.rs sample_gltfpbr. -/
def MaterialPoint.sample_gltfpbr (m : MaterialPoint) (normal outgoing : Vec3) (rnl : ℝ)
    (rn : Vec2) : Vec3 :=
  let up_normal := upNormal normal outgoing
  let reflectivity :=
    vlerp3 (eta_to_reflectivity ⟨m.ior, m.ior, m.ior⟩) m.color m.metallic
  if rnl < mean3 (fresnel_schlick reflectivity up_normal outgoing) then
    let halfway := sample_microfacet m.roughness up_normal rn true
    let incoming := reflect_vec (-outgoing) halfway
    if ¬ same_hemisphere up_normal outgoing incoming then zero3 else incoming
  else sample_hemisphere_cos up_normal rn

/-- shading.rs eval_gltfpbr. -/
def MaterialPoint.eval_gltfpbr (m : MaterialPoint) (normal outgoing incoming : Vec3) : Vec3 :=
  if dot3 normal incoming * dot3 normal outgoing ≤ 0 then zero3
  else
    let up_normal := upNormal normal outgoing
    let reflectivity :=
      vlerp3 (eta_to_reflectivity ⟨m.ior, m.ior, m.ior⟩) m.color m.metallic
    let f1 := fresnel_schlick reflectivity up_normal outgoing
    let halfway := normalize3 (incoming + outgoing)
    let f := fresnel_schlick reflectivity halfway incoming
    let d := microfacet_distribution m.roughness up_normal halfway true
    let g := microfacet_shadowing m.roughness up_normal halfway outgoing incoming
    cmul3 (m.color * (1 - m.metallic)) ((one3 - f1) / Real.pi) * |dot3 up_normal incoming| +
      f * d * g / (4 * dot3 up_normal outgoing * dot3 up_normal incoming) *
        |dot3 up_normal incoming|

/-- shading.rs sample_gltfpbr_pdf. -/
def MaterialPoint.sample_gltfpbr_pdf (m : MaterialPoint)
    (normal outgoing incoming : Vec3) : ℝ :=
  if dot3 normal incoming * dot3 normal outgoing ≤ 0 then 0
  else
    let up_normal := upNormal normal outgoing
    let halfway := normalize3 (outgoing + incoming)
    let reflectivity :=
      vlerp3 (eta_to_reflectivity ⟨m.ior, m.ior, m.ior⟩) m.color m.metallic
    let f := mean3 (fresnel_schlick reflectivity up_normal outgoing)
    f * sample_microfacet_pdf m.roughness up_normal halfway / (4 * |dot3 outgoing halfway|) +
      (1 - f) * sample_hemisphere_cos_pdf up_normal incoming

/-- shading.rs MaterialPoint sample_bsdfcos dispatcher. -/
def MaterialPoint.sample_bsdfcos (m : MaterialPoint) (normal outgoing : Vec3) (rnl : ℝ)
    (rn : Vec2) : Vec3 :=
  match m.m_type with
  | .Matte => m.sample_matte normal outgoing rn
  | .Glossy => m.sample_glossy normal outgoing rnl rn
  | .Reflective => m.sample_reflective normal outgoing rn
  | .Transparent => m.sample_transparent normal outgoing rnl rn
  | .Refractive => m.sample_refractive normal outgoing rnl rn
  | .Subsurface => m.sample_refractive normal outgoing rnl rn
  | .Gltfpbr => m.sample_gltfpbr normal outgoing rnl rn
  | _ => zero3

/-- shading.rs MaterialPoint eval_bsdfcos dispatcher. -/
def MaterialPoint.eval_bsdfcos (m : MaterialPoint) (normal outgoing incoming : Vec3) : Vec3 :=
  if m.roughness = 0 then zero3
  else
    match m.m_type with
    | .Matte => m.eval_matte normal outgoing incoming
    | .Glossy => m.eval_glossy normal outgoing incoming
    | .Reflective => m.eval_reflective normal outgoing incoming
    | .Transparent => m.eval_transparent normal outgoing incoming
    | .Refractive => m.eval_refractive normal outgoing incoming
    | .Subsurface => m.eval_refractive normal outgoing incoming
    | .Gltfpbr => m.eval_gltfpbr normal outgoing incoming
    | _ => zero3

/-- shading.rs MaterialPoint sample_bsdfcos_pdf dispatcher. -/
def MaterialPoint.sample_bsdfcos_pdf (m : MaterialPoint)
    (normal outgoing incoming : Vec3) : ℝ :=
  if m.roughness = 0 then 0
  else
    match m.m_type with
    | .Matte => m.sample_matte_pdf normal outgoing incoming
    | .Glossy => m.sample_glossy_pdf normal outgoing incoming
    | .Reflective => m.sample_reflective_pdf normal outgoing incoming
    | .Transparent => m.sample_transparent_pdf normal outgoing incoming
    | .Refractive => m.sample_refractive_pdf normal outgoing incoming
    | .Subsurface => m.sample_refractive_pdf normal outgoing incoming
    | .Gltfpbr => m.sample_gltfpbr_pdf normal outgoing incoming
    | _ => 0

/-- shading.rs MaterialPoint sample_delta dispatcher. -/
def MaterialPoint.sample_delta (m : MaterialPoint) (normal outgoing : Vec3) (rnl : ℝ) : Vec3 :=
  if m.roughness ≠ 0 then zero3
  else
    match m.m_type with
    | .Reflective => m.sample_reflective_delta normal outgoing
    | .Transparent => m.sample_transparent_delta normal outgoing rnl
    | .Refractive => m.sample_refractive_delta normal outgoing rnl
    | _ => zero3

/-- shading.rs MaterialPoint eval_delta dispatcher. -/
def MaterialPoint.eval_delta (m : MaterialPoint) (normal outgoing incoming : Vec3) : Vec3 :=
  if m.roughness ≠ 0 then zero3
  else
    match m.m_type with
    | .Reflective => m.eval_reflective_delta normal outgoing incoming
    | .Transparent => m.eval_transparent_delta normal outgoing incoming
    | .Refractive => m.eval_refractive_delta normal outgoing incoming
    | _ => zero3

/-- shading.rs MaterialPoint sample_delta_pdf dispatcher. -/
def MaterialPoint.sample_delta_pdf (m : MaterialPoint)
    (normal outgoing incoming : Vec3) : ℝ :=
  if m.roughness ≠ 0 then 0
  else
    match m.m_type with
    | .Reflective => m.sample_reflective_pdf_delta normal outgoing incoming
    | .Transparent => m.sample_transparent_pdf_delta normal outgoing incoming
    | .Refractive => m.sample_refractive_pdf_delta normal outgoing incoming
    | _ => 0

/-- utils.rs is_delta. -/
def is_delta (material : MaterialPoint) : Prop :=
  (material.m_type = .Reflective ∧ material.roughness = 0) ∨
  (material.m_type = .Refractive ∧ material.roughness = 0) ∨
  (material.m_type = .Transparent ∧ material.roughness = 0) ∨
  material.m_type = .Volumetric

instance (material : MaterialPoint) : Decidable (is_delta material) := by
  unfold is_delta; infer_instance

/-- utils.rs is_volumetric. -/
def is_volumetric (material : MaterialPoint) : Prop :=
  material.m_type = .Refractive ∨ material.m_type = .Volumetric ∨
    material.m_type = .Subsurface

instance (material : MaterialPoint) : Decidable (is_volumetric material) := by
  unfold is_volumetric; infer_instance

/-- shading.rs sample_uniform; with size 0 the Rust expression size - 1
underflows the usize (and the callers index an empty vector), modelled as
None. -/
def sample_uniform (size : ℕ) (r : ℝ) : Option ℕ :=
  if size = 0 then none
  else some (min (f32_to_usize (r * (size : ℝ))) (size - 1))

/-- shading.rs sample_uniform_pdf; the Rust value for size 0 is an infinity,
the model yields 0 there (real division by zero). -/
def sample_uniform_pdf (size : ℕ) : ℝ := 1 / (size : ℝ)

/-- shading.rs sample_discrete.  The invocation of f32 clamp panics when the
total weight is below the 0.00001 slack (min above max), and the back()
unwrap panics on an empty distribution: both are modelled as None.  The
partition point of a VecDeque partitioned by the predicate is the length of
its leading true run (the documented contract used with the nondecreasing
cumulative distributions of this program). -/
def sample_discrete (cdf : List ℝ) (r : ℝ) : Option ℕ :=
  match cdf.getLast? with
  | none => none
  | some total =>
    if total - 0.00001 < 0 then none
    else
      let r1 := rustClamp (r * total) 0 (total - 0.00001)
      let idx := (cdf.takeWhile (fun n => decide (n ≤ r1))).length
      some (min idx (cdf.length - 1))

/-- shading.rs sample_discrete_pdf. -/
def sample_discrete_pdf (cdf : List ℝ) (idx : ℕ) : ℝ :=
  if idx = 0 then cdf.getD 0 0 else cdf.getD idx 0 - cdf.getD (idx - 1) 0

/-- shading.rs sample_triangle. -/
def sample_triangle (ruv : Vec2) : Vec2 :=
  ⟨1 - Real.sqrt ruv.x, ruv.y * Real.sqrt ruv.x⟩

/-- shading.rs sample_sphere. -/
def sample_sphere (ruv : Vec2) : Vec3 :=
  let z := 2 * ruv.y - 1
  let r := Real.sqrt (rustClamp (1 - z * z) 0 1)
  let phi := 2 * Real.pi * ruv.x
  ⟨r * Real.cos phi, r * Real.sin phi, z⟩

/-- Emptiness of a list (the Rust is_empty test) is decidable without
deciding equality of the elements. -/
instance listEqNilDec {α : Type} (l : List α) : Decidable (l = []) :=
  match l with
  | [] => isTrue rfl
  | _ :: _ => isFalse (by simp)

/-- Nonemptiness of a list (the Rust is_empty negation) is decidable without
deciding equality of the elements. -/
instance listNeNilDec {α : Type} (l : List α) : Decidable (l ≠ []) :=
  match l with
  | [] => isFalse (by simp)
  | _ :: _ => isTrue (by simp)

/-- scene.rs INVALID sentinel (usize max). -/
def INVALID : ℕ := 2 ^ 64 - 1

/-- scene.rs MIN_ROUGHNESS. -/
def MIN_ROUGHNESS : ℝ := 0.03 * 0.03

/-- Integer index pair (glm TVec2 of i32) of a line segment. -/
structure IVec2 where
  x : ℤ
  y : ℤ

/-- Integer index triple (glm TVec3 of i32) of a triangle. -/
structure IVec3 where
  x : ℤ
  y : ℤ
  z : ℤ

/-- Integer index quadruple (glm TVec4 of i32) of a quad. -/
structure IVec4 where
  x : ℤ
  y : ℤ
  z : ℤ
  w : ℤ

instance : Inhabited IVec2 := ⟨⟨0, 0⟩⟩

instance : Inhabited IVec3 := ⟨⟨0, 0, 0⟩⟩

instance : Inhabited IVec4 := ⟨⟨0, 0, 0, 0⟩⟩

/-- Vertex-array access through an i32 element index after the Rust as-usize
cast; validity of the indices is a data-model invariant of the scene, an
out-of-range access (a Rust panic) falls back to the default element. -/
def iGet {α : Type} [Inhabited α] (l : List α) (i : ℤ) : α := l.getD i.toNat default

/-- scene_components.rs Texture; hdr holds RGB float pixels, bytes holds
RGBA byte pixels in row-major order. -/
structure Texture where
  width : ℕ
  height : ℕ
  linear : Bool
  hdr : List Vec3
  bytes : List (ℕ × ℕ × ℕ × ℕ)

instance : Inhabited Texture := ⟨⟨0, 0, false, [], []⟩⟩

/-- scene_components.rs Texture lookup. -/
def Texture.lookup (t : Texture) (i j : ℕ) (as_linear : Bool) : Vec4 :=
  let color :=
    if t.hdr ≠ [] then
      let c := t.hdr.getD (j * t.width + i) default
      (⟨c.x, c.y, c.z, 1⟩ : Vec4)
    else if t.bytes ≠ [] then
      let c := t.bytes.getD (j * t.width + i) (0, 0, 0, 0)
      (⟨(c.1 : ℝ) / 255, (c.2.1 : ℝ) / 255, (c.2.2.1 : ℝ) / 255, (c.2.2.2 : ℝ) / 255⟩ : Vec4)
    else one4
  if as_linear ∧ ¬ t.linear then srgb_to_rgb color else color

/-- scene_components.rs Instance; the shape and material fields are the
references into the scene arrays. -/
structure Instance where
  frame : Mat3x4
  shape : ℕ
  material : ℕ

instance : Inhabited Instance := ⟨⟨idFrame, INVALID, INVALID⟩⟩

/-- scene_components.rs Environment. -/
structure Environment where
  frame : Mat3x4
  emission : Vec3
  emission_tex : ℕ

instance : Inhabited Environment := ⟨⟨idFrame, zero3, INVALID⟩⟩

/-- scene_components.rs Shape. -/
structure Shape where
  points : List ℤ
  lines : List IVec2
  triangles : List IVec3
  quads : List IVec4
  positions : List Vec3
  normals : List Vec3
  texcoords : List Vec2
  colors : List Vec4
  radius : List ℝ

instance : Inhabited Shape := ⟨⟨[], [], [], [], [], [], [], [], []⟩⟩

/-- scene_components.rs Material. -/
structure Material where
  m_type : MaterialType
  emission : Vec3
  color : Vec3
  roughness : ℝ
  metallic : ℝ
  ior : ℝ
  scattering : Vec3
  scanisotropy : ℝ
  trdepth : ℝ
  opacity : ℝ
  emission_tex : ℕ
  color_tex : ℕ
  roughness_tex : ℕ
  scattering_tex : ℕ
  normal_tex : ℕ

/-- Default Material of scene_components.rs. -/
def Material.default : Material :=
  { m_type := .Matte, emission := zero3, color := zero3, roughness := 0,
    metallic := 0, ior := 1.5, scattering := zero3, scanisotropy := 0,
    trdepth := 0.01, opacity := 1, emission_tex := INVALID, color_tex := INVALID,
    roughness_tex := INVALID, scattering_tex := INVALID, normal_tex := INVALID }

instance : Inhabited Material := ⟨Material.default⟩

/-- scene_components.rs Camera. -/
structure Camera where
  frame : Mat3x4
  orthographic : Bool
  lens : ℝ
  film : ℝ
  aspect : ℝ
  focus : ℝ
  aperture : ℝ

/-- Default Camera of scene_components.rs. -/
def Camera.default : Camera :=
  { frame := idFrame, orthographic := false, lens := 0.05, film := 0.036,
    aspect := 1.5, focus := 10000, aperture := 0 }

instance : Inhabited Camera := ⟨Camera.default⟩

/-- Derived light record.  Its struct declaration is not part of the provided
sources; the fields are read off its uses in scene.rs (named instance,
environment and elements_cdf there; the first is renamed inst here because
instance is a Lean keyword) and match the Light description of the spec data
model: either an instance-based area light or an environment light, with a
cumulative distribution over elements. -/
structure Light where
  inst : ℕ
  environment : ℕ
  elements_cdf : List ℝ

instance : Inhabited Light := ⟨⟨INVALID, INVALID, []⟩⟩

/-- scene.rs Scene. -/
structure Scene where
  cameras : List Camera
  instances : List Instance
  environments : List Environment
  shapes : List Shape
  textures : List Texture
  materials : List Material
  lights : List Light

/-- bvh.rs BvhIntersection (the Rust instance field is renamed inst, a Lean
keyword clash). -/
structure BvhIntersection where
  inst : ℕ
  element : ℕ
  uv : Vec2
  distance : ℝ
  hit : Bool

instance : Inhabited BvhIntersection := ⟨⟨INVALID, INVALID, zero2, 0, false⟩⟩

/-- trace.rs RAY_EPS. -/
def RAY_EPS : ℝ := 0.0001

/-- trace.rs Ray. -/
structure Ray where
  origin : Vec3
  direction : Vec3
  tmin : ℝ
  tmax : ℝ

/-- trace.rs Ray new (Default tmin and tmax). -/
def Ray.new (origin direction : Vec3) : Ray :=
  ⟨origin, direction, RAY_EPS, f32Max⟩

/-- The cumulative distribution built by init_lights from per-element
weights: the first entry is the first weight and every later entry adds the
previous entry onto its weight (elements_cdf of scene.rs init_lights). -/
def cdfAux (acc : ℝ) : List ℝ → List ℝ
  | [] => []
  | w :: ws => (acc + w) :: cdfAux (acc + w) ws

/-- Cumulative distribution of a weight list, entry i being the sum of the
first i+1 weights. -/
def cdfFromWeights (ws : List ℝ) : List ℝ := cdfAux 0 ws

/-- scene_components.rs Shape eval_position (the points fallback used by
eval_shading_position). -/
def Shape.eval_position (s : Shape) (element : ℕ) (uv : Vec2) : Vec3 :=
  if s.triangles ≠ [] then
    let t := s.triangles.getD element default
    interpolate_triangle3 (iGet s.positions t.x) (iGet s.positions t.y) (iGet s.positions t.z) uv
  else if s.quads ≠ [] then
    let q := s.quads.getD element default
    interpolate_quad3 (iGet s.positions q.x) (iGet s.positions q.y) (iGet s.positions q.z)
      (iGet s.positions q.w) uv
  else if s.lines ≠ [] then
    let l := s.lines.getD element default
    interpolate_line3 (iGet s.positions l.x) (iGet s.positions l.y) uv.x
  else if s.points ≠ [] then
    iGet s.positions (s.points.getD element default)
  else zero3

/-- scene_components.rs Shape eval_normal, the fallback normal used when the
shape carries no vertex normals (scene.rs calls it with the element index). -/
def Shape.eval_normal (s : Shape) (inst : Instance) (element : ℕ) : Vec3 :=
  if s.triangles ≠ [] then
    let t := s.triangles.getD element default
    transform_normal_frame inst.frame
      (triangle_normal (iGet s.positions t.x) (iGet s.positions t.y) (iGet s.positions t.z)) false
  else if s.quads ≠ [] then
    let q := s.quads.getD element default
    let qn := normalize3
      (triangle_normal (iGet s.positions q.x) (iGet s.positions q.y) (iGet s.positions q.w) +
        triangle_normal (iGet s.positions q.z) (iGet s.positions q.w) (iGet s.positions q.y))
    transform_normal_frame inst.frame qn false
  else if s.lines ≠ [] then
    let l := s.lines.getD element default
    transform_normal_frame inst.frame
      (iGet s.positions l.y - normalize3 (iGet s.positions l.x)) false
  else if s.points = [] then (⟨0, 0, 1⟩ : Vec3)
  else zero3

/-- scene.rs Scene eval_position. -/
def Scene.eval_position (scene : Scene) (inst : Instance) (element : ℕ) (uv : Vec2) : Vec3 :=
  let shape := scene.shapes.getD inst.shape default
  if shape.triangles ≠ [] then
    let t := shape.triangles.getD element default
    transform_point inst.frame
      (interpolate_triangle3 (iGet shape.positions t.x) (iGet shape.positions t.y)
        (iGet shape.positions t.z) uv)
  else if shape.quads ≠ [] then
    let q := shape.quads.getD element default
    transform_point inst.frame
      (interpolate_quad3 (iGet shape.positions q.x) (iGet shape.positions q.y)
        (iGet shape.positions q.z) (iGet shape.positions q.w) uv)
  else if shape.lines ≠ [] then
    let l := shape.lines.getD element default
    transform_point inst.frame
      (interpolate_line3 (iGet shape.positions l.x) (iGet shape.positions l.y) uv.x)
  else if shape.points ≠ [] then
    transform_point inst.frame (iGet shape.positions (shape.points.getD element default))
  else zero3

/-- scene.rs Scene eval_shading_position. -/
def Scene.eval_shading_position (scene : Scene) (intersection : BvhIntersection) : Vec3 :=
  let inst := scene.instances.getD intersection.inst default
  let shape := scene.shapes.getD inst.shape default
  if shape.triangles ≠ [] ∨ shape.quads ≠ [] then
    scene.eval_position inst intersection.element intersection.uv
  else if shape.lines ≠ [] then
    scene.eval_position inst intersection.element intersection.uv
  else if shape.points ≠ [] then
    shape.eval_position intersection.element intersection.uv
  else zero3

/-- scene.rs Scene eval_normal (interpolated vertex normal with the
element-normal fallback). -/
def Scene.eval_normal (scene : Scene) (inst : Instance) (element : ℕ) (uv : Vec2) : Vec3 :=
  let shape := scene.shapes.getD inst.shape default
  if shape.normals = [] then shape.eval_normal inst element
  else if shape.triangles ≠ [] then
    let t := shape.triangles.getD element default
    transform_normal_frame inst.frame
      (normalize3 (interpolate_triangle3 (iGet shape.normals t.x) (iGet shape.normals t.y)
        (iGet shape.normals t.z) uv)) false
  else if shape.quads ≠ [] then
    let q := shape.quads.getD element default
    transform_normal_frame inst.frame
      (normalize3 (interpolate_quad3 (iGet shape.normals q.x) (iGet shape.normals q.y)
        (iGet shape.normals q.z) (iGet shape.normals q.w) uv)) false
  else if shape.lines ≠ [] then
    let l := shape.lines.getD element default
    transform_normal_frame inst.frame
      (normalize3 (interpolate_line3 (iGet shape.normals l.x) (iGet shape.normals l.y) uv.x))
      false
  else if shape.points ≠ [] then
    transform_normal_frame inst.frame
      (normalize3 (iGet shape.normals (shape.points.getD element default))) false
  else zero3

/-- scene.rs Scene eval_element_normal. -/
def Scene.eval_element_normal (scene : Scene) (inst : Instance) (element : ℕ) : Vec3 :=
  let shape := scene.shapes.getD inst.shape default
  if shape.triangles ≠ [] then
    let t := shape.triangles.getD element default
    transform_normal_frame inst.frame
      (triangle_normal (iGet shape.positions t.x) (iGet shape.positions t.y)
        (iGet shape.positions t.z)) false
  else if shape.quads ≠ [] then
    let q := shape.quads.getD element default
    transform_normal_frame inst.frame
      (quad_normal (iGet shape.positions q.x) (iGet shape.positions q.y)
        (iGet shape.positions q.z) (iGet shape.positions q.w)) false
  else if shape.lines ≠ [] then
    let l := shape.lines.getD element default
    transform_normal_frame inst.frame
      (line_tangent (iGet shape.positions l.x) (iGet shape.positions l.y)) false
  else if shape.points ≠ [] then (⟨0, 0, 1⟩ : Vec3)
  else zero3

/-- utils.rs triangle_tangents_fromuv. -/
def triangle_tangents_fromuv (p0 p1 p2 : Vec3) (uv0 uv1 uv2 : Vec2) : Vec3 × Vec3 :=
  let p := p1 - p0
  let q := p2 - p0
  let s : Vec2 := ⟨uv1.x - uv0.x, uv2.x - uv0.x⟩
  let t : Vec2 := ⟨uv1.y - uv0.y, uv2.y - uv0.y⟩
  let div := s.x * t.y - s.y * t.x
  if div ≠ 0 then
    let tu : Vec3 := (⟨t.y * p.x - t.x * q.x, t.y * p.y - t.x * q.y, t.y * p.z - t.x * q.z⟩ :
      Vec3) / div
    let tv : Vec3 := (⟨s.x * q.x - s.y * p.x, s.x * q.y - s.y * p.y, s.x * q.z - s.y * p.z⟩ :
      Vec3) / div
    (tu, tv)
  else ((⟨1, 0, 0⟩ : Vec3), (⟨0, 1, 0⟩ : Vec3))

/-- utils.rs quad_tangents_fromuv. -/
def quad_tangents_fromuv (p0 p1 p2 p3 : Vec3) (uv0 uv1 uv2 uv3 : Vec2)
    (current_uv : Vec2) : Vec3 × Vec3 :=
  if current_uv.x + current_uv.y ≤ 1 then triangle_tangents_fromuv p0 p1 p3 uv0 uv1 uv3
  else triangle_tangents_fromuv p2 p3 p1 uv2 uv3 uv1

/-- scene.rs Scene eval_element_tangents. -/
def Scene.eval_element_tangents (scene : Scene) (inst : Instance)
    (element : ℕ) : Vec3 × Vec3 :=
  let shape := scene.shapes.getD inst.shape default
  if shape.triangles ≠ [] ∧ shape.texcoords ≠ [] then
    let t := shape.triangles.getD element default
    let tutv := triangle_tangents_fromuv (iGet shape.positions t.x) (iGet shape.positions t.y)
      (iGet shape.positions t.z) (iGet shape.texcoords t.x) (iGet shape.texcoords t.y)
      (iGet shape.texcoords t.z)
    (transform_direction_frame inst.frame tutv.1, transform_direction_frame inst.frame tutv.2)
  else if shape.quads ≠ [] ∧ shape.texcoords ≠ [] then
    let q := shape.quads.getD element default
    let tutv := quad_tangents_fromuv (iGet shape.positions q.x) (iGet shape.positions q.y)
      (iGet shape.positions q.z) (iGet shape.positions q.w) (iGet shape.texcoords q.x)
      (iGet shape.texcoords q.y) (iGet shape.texcoords q.z) (iGet shape.texcoords q.w) zero2
    (transform_direction_frame inst.frame tutv.1, transform_direction_frame inst.frame tutv.2)
  else (zero3, zero3)

/-- scene.rs Scene eval_texcoord. -/
def Scene.eval_texcoord (scene : Scene) (inst : Instance) (element : ℕ) (uv : Vec2) : Vec2 :=
  let shape := scene.shapes.getD inst.shape default
  if shape.texcoords = [] then uv
  else if shape.triangles ≠ [] then
    let t := shape.triangles.getD element default
    interpolate_triangle2 (iGet shape.texcoords t.x) (iGet shape.texcoords t.y)
      (iGet shape.texcoords t.z) uv
  else if shape.quads ≠ [] then
    let q := shape.quads.getD element default
    interpolate_quad2 (iGet shape.texcoords q.x) (iGet shape.texcoords q.y)
      (iGet shape.texcoords q.z) (iGet shape.texcoords q.w) uv
  else if shape.lines ≠ [] then
    let l := shape.lines.getD element default
    interpolate_line2 (iGet shape.texcoords l.x) (iGet shape.texcoords l.y) uv.x
  else if shape.points ≠ [] then
    iGet shape.texcoords (shape.points.getD element default)
  else zero2

/-- scene.rs Scene eval_texture. -/
def Scene.eval_texture (scene : Scene) (texture_idx : ℕ) (uv : Vec2)
    (as_linear no_interpolation clamp_to_edge : Bool) : Vec4 :=
  if texture_idx = INVALID then one4
  else
    let texture := scene.textures.getD texture_idx default
    if texture.width = 0 ∨ texture.height = 0 then zero4
    else
      let s :=
        if clamp_to_edge then rustClamp uv.x 0 1 * (texture.width : ℝ)
        else
          if rustRem uv.x 1 * (texture.width : ℝ) < 0 then
            rustRem uv.x 1 * (texture.width : ℝ) + (texture.width : ℝ)
          else rustRem uv.x 1 * (texture.width : ℝ)
      let t :=
        if clamp_to_edge then rustClamp uv.y 0 1 * (texture.height : ℝ)
        else
          if rustRem uv.y 1 * (texture.height : ℝ) < 0 then
            rustRem uv.y 1 * (texture.height : ℝ) + (texture.height : ℝ)
          else rustRem uv.y 1 * (texture.height : ℝ)
      let i := min (f32_to_usize s) (texture.width - 1)
      let j := min (f32_to_usize t) (texture.height - 1)
      let ii := (i + 1) % texture.width
      let jj := (j + 1) % texture.height
      let u := s - (i : ℝ)
      let v := t - (j : ℝ)
      if no_interpolation then texture.lookup i j as_linear
      else
        texture.lookup i j as_linear * ((1 - u) * (1 - v)) +
          texture.lookup i jj as_linear * ((1 - u) * v) +
          texture.lookup ii j as_linear * (u * (1 - v)) +
          texture.lookup ii jj as_linear * (u * v)

/-- scene.rs Scene eval_normalmap. -/
def Scene.eval_normalmap (scene : Scene) (inst : Instance) (element : ℕ) (uv : Vec2) : Vec3 :=
  let shape := scene.shapes.getD inst.shape default
  let material := scene.materials.getD inst.material default
  let normal := scene.eval_normal inst element uv
  let texcoord := scene.eval_texcoord inst element uv
  if material.normal_tex ≠ INVALID ∧ (shape.triangles ≠ [] ∨ shape.quads ≠ []) then
    let texture := (scene.eval_texture material.normal_tex texcoord false false false).xyz
    let normalmap0 := (⟨-1, -1, -1⟩ : Vec3) + (2 : ℝ) * texture
    let tutv := scene.eval_element_tangents inst element
    let frame_x := orthonormalize tutv.1 normal
    let frame_y := normalize3 (cross3 normal frame_x)
    let flip_v := dot3 frame_y tutv.2 < 0
    let normalmap :=
      if ¬ flip_v then (⟨normalmap0.x, normalmap0.y * (-1), normalmap0.z⟩ : Vec3)
      else normalmap0
    let frame : Mat3x4 := ⟨frame_x, frame_y, normal, zero3⟩
    transform_normal_frame frame normalmap false
  else normal

/-- scene.rs Scene eval_shading_normal. -/
def Scene.eval_shading_normal (scene : Scene) (intersection : BvhIntersection)
    (outgoing : Vec3) : Vec3 :=
  let inst := scene.instances.getD intersection.inst default
  let shape := scene.shapes.getD inst.shape default
  let material := scene.materials.getD inst.material default
  let uv := intersection.uv
  if shape.triangles ≠ [] ∨ shape.quads ≠ [] then
    let normal :=
      if material.normal_tex = INVALID then scene.eval_normal inst intersection.element uv
      else scene.eval_normalmap inst intersection.element uv
    if 0 ≤ dot3 normal outgoing ∨ material.m_type = .Refractive then normal else -normal
  else if shape.lines ≠ [] then
    let normal := scene.eval_normal inst intersection.element uv
    orthonormalize outgoing normal
  else if shape.points ≠ [] then
    transform_direction_frame inst.frame
      (⟨Real.cos (2 * Real.pi * uv.x) * Real.sin (Real.pi * uv.y),
        Real.sin (2 * Real.pi * uv.x) * Real.sin (Real.pi * uv.y),
        Real.cos (Real.pi * uv.y)⟩ : Vec3)
  else zero3

/-- scene.rs Scene eval_color. -/
def Scene.eval_color (scene : Scene) (inst : Instance)
    (intersection : BvhIntersection) : Vec4 :=
  let shape := scene.shapes.getD inst.shape default
  let element := intersection.element
  if shape.colors = [] then one4
  else if shape.triangles ≠ [] then
    let t := shape.triangles.getD element default
    interpolate_triangle4 (iGet shape.colors t.x) (iGet shape.colors t.y)
      (iGet shape.colors t.z) intersection.uv
  else if shape.quads ≠ [] then
    let q := shape.quads.getD element default
    interpolate_quad4 (iGet shape.colors q.x) (iGet shape.colors q.y) (iGet shape.colors q.z)
      (iGet shape.colors q.w) intersection.uv
  else if shape.lines ≠ [] then
    let l := shape.lines.getD element default
    interpolate_line4 (iGet shape.colors l.x) (iGet shape.colors l.y) intersection.uv.x
  else if shape.points ≠ [] then
    iGet shape.colors (shape.points.getD element default)
  else zero4

/-- scene.rs Scene eval_material. -/
def Scene.eval_material (scene : Scene) (intersection : BvhIntersection) : MaterialPoint :=
  let inst := scene.instances.getD intersection.inst default
  let material := scene.materials.getD inst.material default
  let texcoord := scene.eval_texcoord inst intersection.element intersection.uv
  let emission_tex := scene.eval_texture material.emission_tex texcoord true false false
  let color_tex := scene.eval_texture material.color_tex texcoord true false false
  let roughness_tex := scene.eval_texture material.roughness_tex texcoord false false false
  let scattering_tex := scene.eval_texture material.scattering_tex texcoord true false false
  let color_shp := scene.eval_color inst intersection
  let m_type := material.m_type
  let emission := cmul3 material.emission emission_tex.xyz
  let color := cmul3 (cmul3 material.color color_shp.xyz) color_tex.xyz
  let opacity := material.opacity * color_tex.w * color_shp.w
  let metallic := material.metallic * roughness_tex.z
  let roughness0 := material.roughness * roughness_tex.y
  let roughness1 := roughness0 * roughness0
  let ior := material.ior
  let scattering := cmul3 material.scattering scattering_tex.xyz
  let scanisotropy := material.scanisotropy
  let trdepth := material.trdepth
  let density :=
    if m_type = .Refractive ∨ m_type = .Volumetric ∨ m_type = .Subsurface then
      -(vlog3 (vclamp3 color 0.0001 1)) / trdepth
    else zero3
  let roughness :=
    if m_type = .Matte ∨ m_type = .Gltfpbr ∨ m_type = .Glossy then
      rustClamp roughness1 MIN_ROUGHNESS 1
    else if m_type = .Volumetric then 0
    else if roughness1 < MIN_ROUGHNESS then 0
    else roughness1
  { m_type := m_type, emission := emission, color := color, roughness := roughness,
    metallic := metallic, ior := ior, density := density, scattering := scattering,
    scanisotropy := scanisotropy, trdepth := trdepth, opacity := opacity }

/-- scene.rs Scene eval_environment. -/
def Scene.eval_environment (scene : Scene) (direction : Vec3) : Vec3 :=
  scene.environments.foldl (fun emission environment =>
    let wl := transform_direction_frame (inverse_frame environment.frame false) direction
    let texcoord0 : Vec2 :=
      ⟨rustAtan2 wl.z wl.x / (2 * Real.pi), Real.arccos (rustClamp wl.y (-1) 1) / Real.pi⟩
    let texcoord := if texcoord0.x < 0 then (⟨texcoord0.x + 1, texcoord0.y⟩ : Vec2) else texcoord0
    let texture := (scene.eval_texture environment.emission_tex texcoord false false false).xyz
    emission + cmul3 environment.emission texture) zero3

/-- scene_components.rs Camera eval. -/
def Camera.eval (c : Camera) (image_uv lens_uv : Vec2) : Ray :=
  let film : Vec2 :=
    if 1 ≤ c.aspect then ⟨c.film, c.film / c.aspect⟩ else ⟨c.film * c.aspect, c.film⟩
  if ¬ c.orthographic then
    let q : Vec3 := ⟨film.x * (0.5 - image_uv.x), film.y * (image_uv.y - 0.5), c.lens⟩
    let dc := -(normalize3 q)
    let e : Vec3 := ⟨lens_uv.x * c.aperture / 2, lens_uv.y * c.aperture / 2, 0⟩
    let p := dc * c.focus / |dc.z|
    let d := normalize3 (p - e)
    ⟨transform_point c.frame e, transform_direction_frame c.frame d, RAY_EPS, f32Max⟩
  else
    let scale := 1 / c.lens
    let q : Vec3 := ⟨film.x * (0.5 - image_uv.x) * scale, film.y * (image_uv.y - 0.5) * scale,
      c.lens⟩
    let e := (⟨-q.x, -q.y, 0⟩ : Vec3) +
      (⟨lens_uv.x * c.aperture / 2, lens_uv.y * c.aperture / 2, 0⟩ : Vec3)
    let p : Vec3 := ⟨-q.x, -q.y, -c.focus⟩
    let d := normalize3 (p - e)
    ⟨transform_point c.frame e, transform_direction_frame c.frame d, RAY_EPS, f32Max⟩

/-- scene.rs Scene sample_lights.  A None marks an execution on which the
Rust code panics: an empty lights list (underflow and out-of-bounds indexing
through sample_uniform) or an empty or too small cumulative distribution in
sample_discrete. -/
def Scene.sample_lights (scene : Scene) (position : Vec3) (rl rel : ℝ)
    (ruv : Vec2) : Option Vec3 :=
  match sample_uniform scene.lights.length rl with
  | none => none
  | some light_id =>
    let light := scene.lights.getD light_id default
    if light.inst ≠ INVALID then
      let inst := scene.instances.getD light.inst default
      let shape := scene.shapes.getD inst.shape default
      match sample_discrete light.elements_cdf rel with
      | none => none
      | some element =>
        let uv := if shape.triangles ≠ [] then sample_triangle ruv else ruv
        let lposition := scene.eval_position inst element uv
        some (normalize3 (lposition - position))
    else if light.environment ≠ INVALID then
      let environment := scene.environments.getD light.environment default
      if environment.emission_tex ≠ INVALID then
        let emission_tex := scene.textures.getD environment.emission_tex default
        match sample_discrete light.elements_cdf rel with
        | none => none
        | some idx =>
          let u := ((idx % emission_tex.width : ℕ) + (0.5 : ℝ)) / (emission_tex.width : ℝ)
          let v := ((idx / emission_tex.width : ℕ) + (0.5 : ℝ)) / (emission_tex.height : ℝ)
          some (transform_direction_frame environment.frame
            (⟨Real.cos (u * 2 * Real.pi) * Real.sin (v * Real.pi), Real.cos (v * Real.pi),
              Real.sin (u * 2 * Real.pi) * Real.sin (v * Real.pi)⟩ : Vec3))
      else some (sample_sphere ruv)
    else some zero3

/-- The bounded multi-hit accumulation of scene.rs sample_lights_pdf: up to
100 re-intersections of one emissive instance along the given direction. -/
def lightsPdfLoop (scene : Scene) (ii : ℕ → Ray → BvhIntersection) (lightInst : ℕ)
    (inst : Instance) (area : ℝ) (position direction : Vec3) :
    ℕ → Vec3 → ℝ → ℝ
  | 0, _, lpdf => lpdf
  | n + 1, next_position, lpdf =>
    let intersection := ii lightInst (Ray.new next_position direction)
    if ¬ intersection.hit then lpdf
    else
      let lposition := scene.eval_position inst intersection.element intersection.uv
      let lnormal := scene.eval_element_normal inst intersection.element
      let lpdf1 := lpdf +
        dot3 (lposition - position) (lposition - position) / (|dot3 lnormal direction| * area)
      lightsPdfLoop scene ii lightInst inst area position direction n
        (lposition + direction * (0.001 : ℝ)) lpdf1

/-- scene.rs Scene sample_lights_pdf; ii is the external intersect_instance
query of the Intersector.  The unwrap of the last cumulative entry is
modelled with a 0 default: lights built by init_lights always carry a
non-empty distribution, so the default is never taken on well-formed
scenes within this model.  With an empty lights list the Rust value is
0 times an infinity, a NaN; the model yields 0 there. -/
def Scene.sample_lights_pdf (scene : Scene) (ii : ℕ → Ray → BvhIntersection)
    (position direction : Vec3) : ℝ :=
  let pdf := scene.lights.foldl (fun pdf light =>
    if light.inst ≠ INVALID then
      let inst := scene.instances.getD light.inst default
      let area := light.elements_cdf.getLastD 0
      pdf + lightsPdfLoop scene ii light.inst inst area position direction 100 position 0
    else if light.environment ≠ INVALID then
      let environment := scene.environments.getD light.environment default
      if environment.emission_tex ≠ INVALID then
        let emission_tex := scene.textures.getD environment.emission_tex default
        let wl := transform_direction_frame (inverse_frame environment.frame false) direction
        let texcoord0 : Vec2 :=
          ⟨rustAtan2 wl.z wl.x / (2 * Real.pi), Real.arccos (rustClamp wl.y (-1) 1) / Real.pi⟩
        let texcoord :=
          if texcoord0.x < 0 then (⟨texcoord0.x + 1, texcoord0.y⟩ : Vec2) else texcoord0
        let i := min (f32_to_usize (texcoord.x * (emission_tex.width : ℝ)))
          (emission_tex.width - 1)
        let j := min (f32_to_usize (texcoord.y * (emission_tex.height : ℝ)))
          (emission_tex.height - 1)
        let prob := sample_discrete_pdf light.elements_cdf (j * emission_tex.width + i) /
          light.elements_cdf.getLastD 0
        let angle := 2 * Real.pi / (emission_tex.width : ℝ) *
          (Real.pi / (emission_tex.height : ℝ)) *
          Real.sin (Real.pi * ((j : ℝ) + 0.5) / (emission_tex.height : ℝ))
        pdf + prob / angle
      else pdf + 1 / (4 * Real.pi)
    else pdf) 0
  pdf * sample_uniform_pdf scene.lights.length

/-- Modelled from the spec: the participating-media kernels of
MaterialPoint (sample_transmittance, eval_transmittance,
sample_transmittance_pdf, sample_scattering, eval_scattering,
sample_scattering_pdf) are called by trace.rs but their definitions are
missing from the provided sources; the spec describes them only as
free-flight transmittance sampling along a segment and a phase function
with its pdf, so they are carried as uninterpreted functions with the
argument shapes of the call sites. -/
structure VolKernels where
  sample_transmittance : MaterialPoint → ℝ → ℝ → ℝ → ℝ
  eval_transmittance : MaterialPoint → ℝ → Vec3
  sample_transmittance_pdf : MaterialPoint → ℝ → ℝ → ℝ
  sample_scattering : MaterialPoint → Vec3 → Vec2 → Vec3
  eval_scattering : MaterialPoint → Vec3 → Vec3 → Vec3
  sample_scattering_pdf : MaterialPoint → Vec3 → Vec3 → ℝ

/-- Execution environment of a shader: the scene, the two external
Intersector queries (bvh.rs BvhData intersect and intersect_instance) and
the spec-modelled media kernels. -/
structure TraceEnv where
  scene : Scene
  intersect : Ray → BvhIntersection
  intersect_instance : ℕ → Ray → BvhIntersection
  vol : VolKernels

/-- components.rs RaytraceParams.  The Rust struct also carries the shader
function pointer, whose type mentions RaytraceParams itself; that field
cannot be a Lean structure field and the shader is instead passed to
raytrace_samples as an argument. -/
structure RaytraceParams where
  camera : ℕ
  resolution : ℕ
  samples : ℤ
  bounces : ℤ
  noparallel : Bool
  pratio : ℤ
  exposure : ℝ
  filmic : Bool
  clamp : ℝ

/-- Default RaytraceParams of components.rs. -/
def RaytraceParams.default : RaytraceParams :=
  { camera := 0, resolution := 720, samples := 256, bounces := 8, noparallel := false,
    pratio := 8, exposure := 0, filmic := false, clamp := 10 }

/-- Loop state of shade_naive: radiance and throughput accumulators, bounce
counter, alpha flag, current ray and the rng cursor. -/
structure NaiveState where
  radiance : Vec3
  weight : Vec3
  bounce : ℤ
  hit_alpha : ℝ
  ray : Ray
  k : ℕ

/-- Loop state of shade_raytrace: the shade_naive state plus the
volumetric-medium stack (the head of the list is the top of the Rust Vec). -/
structure RayState where
  radiance : Vec3
  weight : Vec3
  volume_stack : List MaterialPoint
  bounce : ℤ
  hit_alpha : ℝ
  ray : Ray
  k : ℕ

/-- Outcome of one integrator loop iteration: continue with a new state, exit
the loop (break) with a final state, or hit a Rust panic. -/
inductive StepOut (σ : Type) where
  | cont (st : σ)
  | brk (st : σ)
  | panic

/-- Outcome of a whole shader run: the returned RGBA sample, a Rust panic, or
exhaustion of the iteration fuel of the model (the Rust loop has no fuel; a
fuelOut only means the chosen bound was too small to finish). -/
inductive ShadeResult where
  | ok (v : Vec4)
  | panicked
  | fuelOut

/-- Weight guard, Russian roulette and loop advance shared by the tails of
both integrator loop bodies (trace.rs lines around the russian roulette
comments); in shade_raytrace the ray was already updated by the branch. -/
def raytraceTail (rng : ℕ → ℝ) (st : RayState) (k : ℕ) : StepOut RayState :=
  if is_null st.weight f32Epsilon ∨ ¬ is_finite3 st.weight then .brk { st with k := k }
  else if 3 < st.bounce then
    let rr_prob := min st.weight.vmax 0.99
    if rr_prob ≤ rng k then .brk { st with k := k + 1 }
    else .cont { st with
      weight := st.weight * (1 / rr_prob),
      bounce := st.bounce + 1,
      k := k + 1 }
  else .cont { st with bounce := st.bounce + 1, k := k }

/-- The volumetric stack update of shade_raytrace: push the material when
transmitting into a volumetric boundary with an empty stack, pop when
exiting. -/
def rayStackUpdate (st : RayState) (material : MaterialPoint)
    (normal outgoing incoming : Vec3) : RayState :=
  if is_volumetric material ∧ dot3 normal outgoing * dot3 normal incoming < 0 then
    match st.volume_stack with
    | [] => { st with volume_stack := [material] }
    | _ :: rest => { st with volume_stack := rest }
  else st

/-- Surface event of the shade_raytrace loop body (trace.rs, the branch taken
when the hit is not superseded by an in-volume scattering event). -/
def raySurface (env : TraceEnv) (rng : ℕ → ℝ) (st : RayState)
    (intersection : BvhIntersection) (k : ℕ) : StepOut RayState :=
  let outgoing := -st.ray.direction
  let position := env.scene.eval_shading_position intersection
  let normal := env.scene.eval_shading_normal intersection outgoing
  let material := env.scene.eval_material intersection
  if material.opacity < 1 ∧ material.opacity ≤ rng k then
    .cont { st with
      ray := { st.ray with origin := position + st.ray.direction * (0.01 : ℝ) },
      bounce := st.bounce - 1,
      k := k + 1 }
  else
    let k1 := if material.opacity < 1 then k + 1 else k
    let st1 := if st.bounce = 0 then { st with hit_alpha := 1 } else st
    let st2 := { st1 with
      radiance := st1.radiance + cmul3 st1.weight (material.eval_emission normal outgoing) }
    if ¬ is_delta material then
      let incOpt : Option (Vec3 × ℕ) :=
        if rng k1 < 0.5 then
          some (material.sample_bsdfcos normal outgoing (rng (k1 + 1))
            ⟨rng (k1 + 2), rng (k1 + 3)⟩, k1 + 4)
        else
          match env.scene.sample_lights position (rng (k1 + 1)) (rng (k1 + 2))
              ⟨rng (k1 + 3), rng (k1 + 4)⟩ with
          | none => none
          | some dir => some (dir, k1 + 5)
      match incOpt with
      | none => .panic
      | some (incoming, k2) =>
        if is_null incoming f32Epsilon then .brk { st2 with k := k2 }
        else
          let bsdfcos := material.eval_bsdfcos normal outgoing incoming
          let bsdfcos_pdf := material.sample_bsdfcos_pdf normal outgoing incoming
          let lights_pdf :=
            env.scene.sample_lights_pdf env.intersect_instance position incoming
          let st3 := { st2 with
            weight := cmul3 st2.weight (bsdfcos / (0.5 * bsdfcos_pdf + 0.5 * lights_pdf)) }
          let st4 := rayStackUpdate st3 material normal outgoing incoming
          let st5 := { st4 with ray := ⟨position, incoming, st4.ray.tmin, st4.ray.tmax⟩ }
          raytraceTail rng st5 k2
    else
      let incoming := material.sample_delta normal outgoing (rng k1)
      let k2 := k1 + 1
      if is_null incoming f32Epsilon then .brk { st2 with k := k2 }
      else
        let delta := material.eval_delta normal outgoing incoming /
          material.sample_delta_pdf normal outgoing incoming
        let st3 := { st2 with weight := cmul3 st2.weight delta }
        let st4 := rayStackUpdate st3 material normal outgoing incoming
        let st5 := { st4 with ray := ⟨position, incoming, st4.ray.tmin, st4.ray.tmax⟩ }
        raytraceTail rng st5 k2

/-- In-medium scattering event of the shade_raytrace loop body.  The state
reaches it only with a non-empty stack; the empty-stack case mirrors the
unwrap of the source (unreachable from the step function). -/
def rayVolume (env : TraceEnv) (rng : ℕ → ℝ) (st : RayState)
    (intersection : BvhIntersection) (k : ℕ) : StepOut RayState :=
  match st.volume_stack with
  | [] => .panic
  | vol :: _ =>
    let position := st.ray.origin + st.ray.direction * intersection.distance
    let outgoing := -st.ray.direction
    let ds := cmul3 vol.density (one3 - vol.scattering)
    let dse := cmul3 ds vol.emission
    let st1 := { st with radiance := st.radiance + cmul3 st.weight dse }
    let incOpt : Option (Vec3 × ℕ) :=
      if rng k < 0.5 then
        some (env.vol.sample_scattering vol outgoing ⟨rng (k + 1), rng (k + 2)⟩, k + 3)
      else
        match env.scene.sample_lights position (rng (k + 1)) (rng (k + 2))
            ⟨rng (k + 3), rng (k + 4)⟩ with
        | none => none
        | some dir => some (dir, k + 5)
    match incOpt with
    | none => .panic
    | some (incoming, k2) =>
      if is_null incoming f32Epsilon then .brk { st1 with k := k2 }
      else
        let scattering := env.vol.eval_scattering vol outgoing incoming
        let scattering_pdf := env.vol.sample_scattering_pdf vol outgoing incoming
        let lights_pdf :=
          env.scene.sample_lights_pdf env.intersect_instance position incoming
        let st2 := { st1 with
          weight := cmul3 st1.weight
            (scattering / (0.5 * scattering_pdf + 0.5 * lights_pdf)) }
        let st3 := { st2 with ray := ⟨position, incoming, st2.ray.tmin, st2.ray.tmax⟩ }
        raytraceTail rng st3 k2

/-- One iteration of the shade_raytrace while loop. -/
def shadeRaytraceStep (env : TraceEnv) (rng : ℕ → ℝ) (st : RayState) : StepOut RayState :=
  let intersection0 := env.intersect st.ray
  if ¬ intersection0.hit then
    .brk { st with
      radiance := st.radiance + cmul3 st.weight (env.scene.eval_environment st.ray.direction) }
  else
    match st.volume_stack with
    | [] => raySurface env rng st intersection0 st.k
    | extinction :: _ =>
      let distance := env.vol.sample_transmittance extinction intersection0.distance
        (rng st.k) (rng (st.k + 1))
      let transmittance := env.vol.eval_transmittance extinction distance /
        env.vol.sample_transmittance_pdf extinction distance intersection0.distance
      let st1 := { st with weight := cmul3 st.weight transmittance }
      let intersection := { intersection0 with distance := distance }
      if distance < intersection0.distance then rayVolume env rng st1 intersection (st.k + 2)
      else raySurface env rng st1 intersection (st.k + 2)

/-- The shade_raytrace while loop, driven by an iteration fuel. -/
def shadeRaytraceLoop (env : TraceEnv) (params : RaytraceParams) (rng : ℕ → ℝ) :
    ℕ → RayState → ShadeResult
  | 0, _ => .fuelOut
  | n + 1, st =>
    if st.bounce < params.bounces then
      match shadeRaytraceStep env rng st with
      | .cont st1 => shadeRaytraceLoop env params rng n st1
      | .brk st1 => .ok ⟨st1.radiance.x, st1.radiance.y, st1.radiance.z, st1.hit_alpha⟩
      | .panic => .panicked
    else .ok ⟨st.radiance.x, st.radiance.y, st.radiance.z, st.hit_alpha⟩

/-- trace.rs shade_raytrace. -/
def shade_raytrace (env : TraceEnv) (params : RaytraceParams) (ray : Ray) (rng : ℕ → ℝ)
    (fuel : ℕ) : ShadeResult :=
  shadeRaytraceLoop env params rng fuel
    { radiance := zero3, weight := one3, volume_stack := [], bounce := 0, hit_alpha := 0,
      ray := ray, k := 0 }

/-- Weight guard, Russian roulette and loop advance of the shade_naive loop
body; shade_naive updates the ray here, at the very end of the iteration. -/
def naiveTail (rng : ℕ → ℝ) (st : NaiveState) (position incoming : Vec3) (k : ℕ) :
    StepOut NaiveState :=
  if is_null st.weight f32Epsilon ∨ ¬ is_finite3 st.weight then .brk { st with k := k }
  else if 3 < st.bounce then
    let rr_prob := min st.weight.vmax 0.99
    if rr_prob ≤ rng k then .brk { st with k := k + 1 }
    else .cont { st with
      weight := st.weight * (1 / rr_prob),
      bounce := st.bounce + 1,
      ray := ⟨position, incoming, st.ray.tmin, st.ray.tmax⟩,
      k := k + 1 }
  else .cont { st with
    bounce := st.bounce + 1,
    ray := ⟨position, incoming, st.ray.tmin, st.ray.tmax⟩,
    k := k }

/-- One iteration of the shade_naive while loop. -/
def shadeNaiveStep (env : TraceEnv) (rng : ℕ → ℝ) (st : NaiveState) : StepOut NaiveState :=
  let intersection := env.intersect st.ray
  if ¬ intersection.hit then
    .brk { st with
      radiance := st.radiance + cmul3 st.weight (env.scene.eval_environment st.ray.direction) }
  else
    let outgoing := -st.ray.direction
    let position := env.scene.eval_shading_position intersection
    let normal := env.scene.eval_shading_normal intersection outgoing
    let material := env.scene.eval_material intersection
    if material.opacity < 1 ∧ material.opacity ≤ rng st.k then
      .cont { st with
        ray := { st.ray with origin := position + st.ray.direction * (0.01 : ℝ) },
        bounce := st.bounce - 1,
        k := st.k + 1 }
    else
      let k1 := if material.opacity < 1 then st.k + 1 else st.k
      let st1 := if st.bounce = 0 then { st with hit_alpha := 1 } else st
      let st2 := { st1 with
        radiance := st1.radiance + cmul3 st1.weight (material.eval_emission normal outgoing) }
      if ¬ is_delta material then
        let incoming := material.sample_bsdfcos normal outgoing (rng k1)
          ⟨rng (k1 + 1), rng (k1 + 2)⟩
        let k2 := k1 + 3
        if is_null incoming f32Epsilon then .brk { st2 with k := k2 }
        else
          let bsdfcos := material.eval_bsdfcos normal outgoing incoming /
            material.sample_bsdfcos_pdf normal outgoing incoming
          let st3 := { st2 with weight := cmul3 st2.weight bsdfcos }
          naiveTail rng st3 position incoming k2
      else
        let incoming := material.sample_delta normal outgoing (rng k1)
        let k2 := k1 + 1
        if is_null incoming f32Epsilon then .brk { st2 with k := k2 }
        else
          let delta := material.eval_delta normal outgoing incoming /
            material.sample_delta_pdf normal outgoing incoming
          let st3 := { st2 with weight := cmul3 st2.weight delta }
          naiveTail rng st3 position incoming k2

/-- The shade_naive while loop, driven by an iteration fuel. -/
def shadeNaiveLoop (env : TraceEnv) (params : RaytraceParams) (rng : ℕ → ℝ) :
    ℕ → NaiveState → ShadeResult
  | 0, _ => .fuelOut
  | n + 1, st =>
    if st.bounce < params.bounces then
      match shadeNaiveStep env rng st with
      | .cont st1 => shadeNaiveLoop env params rng n st1
      | .brk st1 => .ok ⟨st1.radiance.x, st1.radiance.y, st1.radiance.z, st1.hit_alpha⟩
      | .panic => .panicked
    else .ok ⟨st.radiance.x, st.radiance.y, st.radiance.z, st.hit_alpha⟩

/-- trace.rs shade_naive. -/
def shade_naive (env : TraceEnv) (params : RaytraceParams) (ray : Ray) (rng : ℕ → ℝ)
    (fuel : ℕ) : ShadeResult :=
  shadeNaiveLoop env params rng fuel
    { radiance := zero3, weight := one3, bounce := 0, hit_alpha := 0, ray := ray, k := 0 }

/-- components.rs RaytraceState: the accumulation buffer, its dimensions, the
sample counter and one random stream per pixel. -/
structure RaytraceState where
  width : ℕ
  height : ℕ
  samples : ℤ
  image : List Vec4
  rngs : ℕ → ℕ → ℝ

/-- The per-pixel body of the parallel loop of trace.rs raytrace_samples:
jittered pixel uv, lens sample, camera ray, shader radiance and the clamp.
The shader argument stands for the params shader function pointer applied to
the fixed scene and bvh; it receives the generated ray, the pixel stream and
the cursor after the four driver draws. -/
def pixel_sample (scene : Scene) (state : RaytraceState) (params : RaytraceParams)
    (shader : Ray → (ℕ → ℝ) → ℕ → Vec4) (idx : ℕ) : Vec4 :=
  let i := idx % state.width
  let j := idx / state.width
  let rng := state.rngs idx
  let puv : Vec2 := ⟨rng 0, rng 1⟩
  let uv : Vec2 := ⟨((i : ℝ) + puv.x) / (state.width : ℝ), ((j : ℝ) + puv.y) / (state.height : ℝ)⟩
  let camera := scene.cameras.getD params.camera default
  let ray := camera.eval uv (sample_disk ⟨rng 2, rng 3⟩)
  let radiance := shader ray rng 4
  if params.clamp ≠ 0 ∧ params.clamp < radiance.vmax then
    radiance * (params.clamp / radiance.vmax)
  else radiance

/-- trace.rs raytrace_samples.  The unsafe per-index pointer writes of the
parallel loop are modelled as one in-place map over the buffer (the source
relies on the buffer length being width times height; a mismatched buffer is
undefined behaviour there and is not modelled). -/
def raytrace_samples (scene : Scene) (state : RaytraceState) (params : RaytraceParams)
    (shader : Ray → (ℕ → ℝ) → ℕ → Vec4) : RaytraceState :=
  if params.samples ≤ state.samples then state
  else
    { state with
      samples := state.samples + 1,
      image := state.image.mapIdx (fun idx v => v + pixel_sample scene state params shader idx) }

/-! Helper lemmas shared by the claim proofs. -/

theorem cmul3_one (a : Vec3) : cmul3 a one3 = a := by
  cases a; simp [cmul3, one3]

theorem one4_xyz : one4.xyz = one3 := rfl

theorem zero_ne_INVALID : 0 ≠ INVALID := by norm_num [INVALID]

/-- Claim C10: eval_texture yields opaque white on the INVALID sentinel and
zero on a texture with a zero dimension, and the INVALID color texture is
therefore a multiplicative identity in the color modulation of
eval_material. -/
theorem c10_theorem :
    (∀ (scene : Scene) (uv : Vec2) (al ni ce : Bool),
      scene.eval_texture INVALID uv al ni ce = one4) ∧
    (∀ (scene : Scene) (idx : ℕ) (uv : Vec2) (al ni ce : Bool),
      idx ≠ INVALID →
      ((scene.textures.getD idx default).width = 0 ∨
        (scene.textures.getD idx default).height = 0) →
      scene.eval_texture idx uv al ni ce = zero4) ∧
    (∀ (scene : Scene) (intersection : BvhIntersection),
      (scene.materials.getD
        (scene.instances.getD intersection.inst default).material default).color_tex =
          INVALID →
      (scene.eval_material intersection).color =
        cmul3 (cmul3 (scene.materials.getD
            (scene.instances.getD intersection.inst default).material default).color
          (scene.eval_color (scene.instances.getD intersection.inst default)
            intersection).xyz) one3) := by
  refine ⟨?_, ?_, ?_⟩
  · intro scene uv al ni ce
    simp [Scene.eval_texture]
  · intro scene idx uv al ni ce hidx hz
    rw [Scene.eval_texture, if_neg hidx, if_pos hz]
  · intro scene intersection hct
    simp only [Scene.eval_material, hct]
    simp [Scene.eval_texture, one4_xyz]

/-! Concrete scenes, environments and random streams used by the witnesses
and counterexamples. -/

/-- One right triangle in the xy plane with no extra vertex attributes. -/
def triShape : Shape :=
  { points := []
    lines := []
    triangles := [⟨0, 1, 2⟩]
    quads := []
    positions := [⟨0, 0, 0⟩, ⟨1, 0, 0⟩, ⟨0, 1, 0⟩]
    normals := []
    texcoords := []
    colors := []
    radius := [] }

/-- A width-zero texture. -/
def texZero : Texture := ⟨0, 5, false, [], []⟩

/-- Matte material with opacity one half (for the alpha-cutout paths). -/
def mA0 : Material := { Material.default with m_type := .Matte, opacity := 1 / 2 }

/-- Opaque emissive matte material. -/
def mA1 : Material :=
  { Material.default with
    m_type := .Matte
    emission := ⟨1, 1, 1⟩
    color := ⟨1 / 2, 1 / 2, 1 / 2⟩
    roughness := 1 / 2 }

/-- Volumetric material. -/
def mA2 : Material := { Material.default with m_type := .Volumetric }

/-- Concrete scene: one triangle shape, three instances carrying the three
materials, one zero-width texture, no lights and no environments. -/
def sceneA : Scene :=
  { cameras := [Camera.default]
    instances := [⟨idFrame, 0, 0⟩, ⟨idFrame, 0, 1⟩, ⟨idFrame, 0, 2⟩]
    environments := []
    shapes := [triShape]
    textures := [texZero]
    materials := [mA0, mA1, mA2]
    lights := [] }

/-- Intersection hitting instance 0 (the half-opaque matte). -/
def interA0 : BvhIntersection := ⟨0, 0, zero2, 1, true⟩

/-- Intersection hitting instance 1 (the opaque emissive matte). -/
def interA1 : BvhIntersection := ⟨1, 0, zero2, 1, true⟩

/-- Intersection hitting instance 2 (the volumetric material). -/
def interA2 : BvhIntersection := ⟨2, 0, zero2, 1, true⟩

/-- Claim C10 witness: the zero-width texture of the concrete scene reads as
zero, and the INVALID color texture of its matte material leaves the color
modulation product untouched. -/
theorem c10_witness :
    sceneA.eval_texture 0 zero2 false false false = zero4 ∧
    (sceneA.eval_material interA1).color =
      cmul3 (cmul3 (sceneA.materials.getD
          (sceneA.instances.getD interA1.inst default).material default).color
        (sceneA.eval_color (sceneA.instances.getD interA1.inst default) interA1).xyz) one3 := by
  constructor
  · exact c10_theorem.2.1 sceneA 0 zero2 false false false zero_ne_INVALID
      (Or.inl (by simp [sceneA, texZero]))
  · exact c10_theorem.2.2 sceneA interA1 (by simp [sceneA, interA1, mA1, Material.default])

/-- The roughness component of eval_material, isolated: the texture-modulated
squared roughness pushed through the family-dependent fixup chain. -/
theorem eval_material_roughness (scene : Scene) (intersection : BvhIntersection) :
    (scene.eval_material intersection).roughness =
      (if (scene.materials.getD (scene.instances.getD intersection.inst default).material
            default).m_type = .Matte ∨
          (scene.materials.getD (scene.instances.getD intersection.inst default).material
            default).m_type = .Gltfpbr ∨
          (scene.materials.getD (scene.instances.getD intersection.inst default).material
            default).m_type = .Glossy then
        rustClamp
          ((scene.materials.getD (scene.instances.getD intersection.inst default).material
              default).roughness *
            (scene.eval_texture
              (scene.materials.getD (scene.instances.getD intersection.inst default).material
                default).roughness_tex
              (scene.eval_texcoord (scene.instances.getD intersection.inst default)
                intersection.element intersection.uv) false false false).y *
            ((scene.materials.getD (scene.instances.getD intersection.inst default).material
                default).roughness *
              (scene.eval_texture
                (scene.materials.getD (scene.instances.getD intersection.inst default).material
                  default).roughness_tex
                (scene.eval_texcoord (scene.instances.getD intersection.inst default)
                  intersection.element intersection.uv) false false false).y))
          MIN_ROUGHNESS 1
      else if (scene.materials.getD (scene.instances.getD intersection.inst default).material
          default).m_type = .Volumetric then 0
      else if (scene.materials.getD (scene.instances.getD intersection.inst default).material
            default).roughness *
          (scene.eval_texture
            (scene.materials.getD (scene.instances.getD intersection.inst default).material
              default).roughness_tex
            (scene.eval_texcoord (scene.instances.getD intersection.inst default)
              intersection.element intersection.uv) false false false).y *
          ((scene.materials.getD (scene.instances.getD intersection.inst default).material
              default).roughness *
            (scene.eval_texture
              (scene.materials.getD (scene.instances.getD intersection.inst default).material
                default).roughness_tex
              (scene.eval_texcoord (scene.instances.getD intersection.inst default)
                intersection.element intersection.uv) false false false).y) <
          MIN_ROUGHNESS then 0
      else
        (scene.materials.getD (scene.instances.getD intersection.inst default).material
            default).roughness *
          (scene.eval_texture
            (scene.materials.getD (scene.instances.getD intersection.inst default).material
              default).roughness_tex
            (scene.eval_texcoord (scene.instances.getD intersection.inst default)
              intersection.element intersection.uv) false false false).y *
          ((scene.materials.getD (scene.instances.getD intersection.inst default).material
              default).roughness *
            (scene.eval_texture
              (scene.materials.getD (scene.instances.getD intersection.inst default).material
                default).roughness_tex
              (scene.eval_texcoord (scene.instances.getD intersection.inst default)
                intersection.element intersection.uv) false false false).y)) := by
  simp only [Scene.eval_material]

/-- Claim C8: the roughness produced by eval_material is the texture-modulated
material roughness squared, clamped into the MIN_ROUGHNESS to 1 range for the
families Matte, Glossy and Gltfpbr, forced to 0 for Volumetric, and snapped
to exactly 0 for the remaining (delta-capable) families whenever the squared
value falls below MIN_ROUGHNESS, kept as the squared value otherwise. -/
theorem c8_theorem (scene : Scene) (intersection : BvhIntersection) :
    ((scene.materials.getD (scene.instances.getD intersection.inst default).material
        default).m_type = .Matte ∨
      (scene.materials.getD (scene.instances.getD intersection.inst default).material
        default).m_type = .Glossy ∨
      (scene.materials.getD (scene.instances.getD intersection.inst default).material
        default).m_type = .Gltfpbr →
      (scene.eval_material intersection).roughness =
        rustClamp
          ((scene.materials.getD (scene.instances.getD intersection.inst default).material
              default).roughness *
            (scene.eval_texture
              (scene.materials.getD (scene.instances.getD intersection.inst default).material
                default).roughness_tex
              (scene.eval_texcoord (scene.instances.getD intersection.inst default)
                intersection.element intersection.uv) false false false).y *
            ((scene.materials.getD (scene.instances.getD intersection.inst default).material
                default).roughness *
              (scene.eval_texture
                (scene.materials.getD (scene.instances.getD intersection.inst default).material
                  default).roughness_tex
                (scene.eval_texcoord (scene.instances.getD intersection.inst default)
                  intersection.element intersection.uv) false false false).y))
          MIN_ROUGHNESS 1) ∧
    ((scene.materials.getD (scene.instances.getD intersection.inst default).material
        default).m_type = .Volumetric →
      (scene.eval_material intersection).roughness = 0) ∧
    ((scene.materials.getD (scene.instances.getD intersection.inst default).material
        default).m_type = .Reflective ∨
      (scene.materials.getD (scene.instances.getD intersection.inst default).material
        default).m_type = .Transparent ∨
      (scene.materials.getD (scene.instances.getD intersection.inst default).material
        default).m_type = .Refractive ∨
      (scene.materials.getD (scene.instances.getD intersection.inst default).material
        default).m_type = .Subsurface →
      ((scene.materials.getD (scene.instances.getD intersection.inst default).material
          default).roughness *
        (scene.eval_texture
          (scene.materials.getD (scene.instances.getD intersection.inst default).material
            default).roughness_tex
          (scene.eval_texcoord (scene.instances.getD intersection.inst default)
            intersection.element intersection.uv) false false false).y *
        ((scene.materials.getD (scene.instances.getD intersection.inst default).material
            default).roughness *
          (scene.eval_texture
            (scene.materials.getD (scene.instances.getD intersection.inst default).material
              default).roughness_tex
            (scene.eval_texcoord (scene.instances.getD intersection.inst default)
              intersection.element intersection.uv) false false false).y) <
          MIN_ROUGHNESS →
        (scene.eval_material intersection).roughness = 0) ∧
      ((scene.materials.getD (scene.instances.getD intersection.inst default).material
          default).roughness *
        (scene.eval_texture
          (scene.materials.getD (scene.instances.getD intersection.inst default).material
            default).roughness_tex
          (scene.eval_texcoord (scene.instances.getD intersection.inst default)
            intersection.element intersection.uv) false false false).y *
        ((scene.materials.getD (scene.instances.getD intersection.inst default).material
            default).roughness *
          (scene.eval_texture
            (scene.materials.getD (scene.instances.getD intersection.inst default).material
              default).roughness_tex
            (scene.eval_texcoord (scene.instances.getD intersection.inst default)
              intersection.element intersection.uv) false false false).y) ≥
          MIN_ROUGHNESS →
        (scene.eval_material intersection).roughness =
          (scene.materials.getD (scene.instances.getD intersection.inst default).material
              default).roughness *
            (scene.eval_texture
              (scene.materials.getD (scene.instances.getD intersection.inst default).material
                default).roughness_tex
              (scene.eval_texcoord (scene.instances.getD intersection.inst default)
                intersection.element intersection.uv) false false false).y *
            ((scene.materials.getD (scene.instances.getD intersection.inst default).material
                default).roughness *
              (scene.eval_texture
                (scene.materials.getD (scene.instances.getD intersection.inst default).material
                  default).roughness_tex
                (scene.eval_texcoord (scene.instances.getD intersection.inst default)
                  intersection.element intersection.uv) false false false).y))) := by
  refine ⟨?_, ?_, ?_⟩
  · intro h
    rw [eval_material_roughness]
    rcases h with h | h | h
    · rw [h, if_pos (Or.inl rfl)]
    · rw [h, if_pos (Or.inr (Or.inr rfl))]
    · rw [h, if_pos (Or.inr (Or.inl rfl))]
  · intro h
    rw [eval_material_roughness, h, if_neg (by simp), if_pos rfl]
  · intro h
    constructor
    · intro hlt
      rw [eval_material_roughness]
      rcases h with h | h | h | h <;>
        rw [h, if_neg (by simp), if_neg (by simp), if_pos hlt]
    · intro hge
      rw [eval_material_roughness]
      rcases h with h | h | h | h <;>
        rw [h, if_neg (by simp), if_neg (by simp), if_neg (not_lt.mpr hge)]

/-- Claim C8 witness: the matte instance of the concrete scene gets the
clamped squared roughness and the volumetric instance gets roughness 0. -/
theorem c8_witness :
    (sceneA.eval_material interA1).roughness =
      rustClamp
        ((sceneA.materials.getD (sceneA.instances.getD interA1.inst default).material
            default).roughness *
          (sceneA.eval_texture
            (sceneA.materials.getD (sceneA.instances.getD interA1.inst default).material
              default).roughness_tex
            (sceneA.eval_texcoord (sceneA.instances.getD interA1.inst default)
              interA1.element interA1.uv) false false false).y *
          ((sceneA.materials.getD (sceneA.instances.getD interA1.inst default).material
              default).roughness *
            (sceneA.eval_texture
              (sceneA.materials.getD (sceneA.instances.getD interA1.inst default).material
                default).roughness_tex
              (sceneA.eval_texcoord (sceneA.instances.getD interA1.inst default)
                interA1.element interA1.uv) false false false).y))
        MIN_ROUGHNESS 1 ∧
    (sceneA.eval_material interA2).roughness = 0 := by
  constructor
  · exact (c8_theorem sceneA interA1).1 (Or.inl rfl)
  · exact (c8_theorem sceneA interA2).2.1 rfl

/-- Claim C4 (amended): under the reversed-hemisphere condition, eval_bsdfcos
is exactly zero for Matte, Glossy, Reflective and Gltfpbr, and
sample_bsdfcos_pdf is exactly zero for Matte, Reflective and Gltfpbr; the
Glossy pdf is excluded because sample_glossy_pdf carries no hemisphere
guard. -/
theorem c4_theorem :
    (∀ (m : MaterialPoint) (normal outgoing incoming : Vec3),
      (m.m_type = .Matte ∨ m.m_type = .Glossy ∨ m.m_type = .Reflective ∨
        m.m_type = .Gltfpbr) →
      dot3 normal incoming * dot3 normal outgoing ≤ 0 →
      m.eval_bsdfcos normal outgoing incoming = zero3) ∧
    (∀ (m : MaterialPoint) (normal outgoing incoming : Vec3),
      (m.m_type = .Matte ∨ m.m_type = .Reflective ∨ m.m_type = .Gltfpbr) →
      dot3 normal incoming * dot3 normal outgoing ≤ 0 →
      m.sample_bsdfcos_pdf normal outgoing incoming = 0) := by
  constructor
  · intro m normal outgoing incoming h hle
    by_cases hr : m.roughness = 0
    · simp [MaterialPoint.eval_bsdfcos, hr]
    · rcases h with h | h | h | h <;>
        simp only [MaterialPoint.eval_bsdfcos, if_neg hr, h] <;>
        simp only [MaterialPoint.eval_matte, MaterialPoint.eval_glossy,
          MaterialPoint.eval_reflective, MaterialPoint.eval_gltfpbr, if_pos hle]
  · intro m normal outgoing incoming h hle
    by_cases hr : m.roughness = 0
    · simp [MaterialPoint.sample_bsdfcos_pdf, hr]
    · rcases h with h | h | h <;>
        simp only [MaterialPoint.sample_bsdfcos_pdf, if_neg hr, h] <;>
        simp only [MaterialPoint.sample_matte_pdf, MaterialPoint.sample_reflective_pdf,
          MaterialPoint.sample_gltfpbr_pdf, if_pos hle]

/-- Claim C4 witness: the matte default point under a flipped incoming
direction evaluates and integrates to exactly zero. -/
theorem c4_witness :
    dot3 ⟨0, 0, 1⟩ ⟨0, 0, -1⟩ * dot3 ⟨0, 0, 1⟩ ⟨0, 0, 1⟩ ≤ 0 ∧
    MaterialPoint.default.eval_bsdfcos ⟨0, 0, 1⟩ ⟨0, 0, 1⟩ ⟨0, 0, -1⟩ = zero3 ∧
    MaterialPoint.default.sample_bsdfcos_pdf ⟨0, 0, 1⟩ ⟨0, 0, 1⟩ ⟨0, 0, -1⟩ = 0 := by
  refine ⟨by norm_num [dot3], ?_, ?_⟩
  · exact c4_theorem.1 MaterialPoint.default _ _ _ (Or.inl rfl) (by norm_num [dot3])
  · exact c4_theorem.2 MaterialPoint.default _ _ _ (Or.inl rfl) (by norm_num [dot3])

/-- Glossy material point with a rational halfway configuration. -/
def glossyCE : MaterialPoint :=
  { MaterialPoint.default with m_type := .Glossy, roughness := 1 / 2, ior := 3 / 2 }

theorem glossyCE_pdf_eval :
    glossyCE.sample_bsdfcos_pdf ⟨0, 0, 1⟩ ⟨0, 0, 1⟩ ⟨24 / 25, 0, -(7 / 25)⟩ =
      25 / (5329 * Real.pi) := by
  have hup : upNormal ⟨0, 0, 1⟩ ⟨0, 0, 1⟩ = ⟨0, 0, 1⟩ := by
    rw [upNormal, if_neg (by norm_num [dot3])]
  have hadd : (⟨0, 0, 1⟩ : Vec3) + ⟨24 / 25, 0, -(7 / 25)⟩ = ⟨24 / 25, 0, 18 / 25⟩ := by
    show (⟨0 + 24 / 25, 0 + 0, 1 + -(7 / 25)⟩ : Vec3) = _
    norm_num
  have hnorm : norm3 (⟨24 / 25, 0, 18 / 25⟩ : Vec3) = 6 / 5 := by
    rw [norm3, show dot3 (⟨24 / 25, 0, 18 / 25⟩ : Vec3) ⟨24 / 25, 0, 18 / 25⟩ = (6 / 5) ^ 2 by
      norm_num [dot3], Real.sqrt_sq (by norm_num)]
  have hhw : normalize3 (⟨24 / 25, 0, 18 / 25⟩ : Vec3) = ⟨4 / 5, 0, 3 / 5⟩ := by
    rw [normalize3, hnorm]
    show (⟨24 / 25 / (6 / 5), 0 / (6 / 5), 18 / 25 / (6 / 5)⟩ : Vec3) = _
    norm_num
  have hfd : fresnel_dielectric (3 / 2) ⟨0, 0, 1⟩ ⟨0, 0, 1⟩ = 1 / 25 := by
    rw [fresnel_dielectric]
    norm_num [dot3, Real.sqrt_one]
  have hmd : microfacet_distribution (1 / 2) ⟨0, 0, 1⟩ ⟨4 / 5, 0, 3 / 5⟩ true =
      2500 / (5329 * Real.pi) := by
    rw [microfacet_distribution, if_neg (by norm_num [dot3])]
    simp only [dot3]
    rw [show (0 * (4 / 5) + 0 * 0 + 1 * (3 / 5) : ℝ) = 3 / 5 by norm_num]
    have hpi := Real.pi_ne_zero
    field_simp
    ring
  have hsm : sample_microfacet_pdf (1 / 2) ⟨0, 0, 1⟩ ⟨4 / 5, 0, 3 / 5⟩ =
      1500 / (5329 * Real.pi) := by
    rw [sample_microfacet_pdf, if_neg (by norm_num [dot3]), hmd]
    rw [show dot3 (⟨0, 0, 1⟩ : Vec3) ⟨4 / 5, 0, 3 / 5⟩ = 3 / 5 by norm_num [dot3]]
    have hpi := Real.pi_ne_zero
    field_simp
    ring
  have hhemi : sample_hemisphere_cos_pdf ⟨0, 0, 1⟩ ⟨24 / 25, 0, -(7 / 25)⟩ = 0 := by
    rw [sample_hemisphere_cos_pdf, if_pos (by norm_num [dot3])]
  have h1 : glossyCE.sample_bsdfcos_pdf ⟨0, 0, 1⟩ ⟨0, 0, 1⟩ ⟨24 / 25, 0, -(7 / 25)⟩ =
      glossyCE.sample_glossy_pdf ⟨0, 0, 1⟩ ⟨0, 0, 1⟩ ⟨24 / 25, 0, -(7 / 25)⟩ := by
    rw [MaterialPoint.sample_bsdfcos_pdf, if_neg (by norm_num [glossyCE])]
    rfl
  rw [h1, MaterialPoint.sample_glossy_pdf]
  simp only [hup, hadd, hhw, hsm, hhemi]
  rw [show glossyCE.ior = 3 / 2 from rfl, hfd]
  rw [show dot3 (⟨0, 0, 1⟩ : Vec3) ⟨4 / 5, 0, 3 / 5⟩ = 3 / 5 by norm_num [dot3],
    show glossyCE.roughness = 1 / 2 from rfl]
  rw [hsm]
  have hpi := Real.pi_ne_zero
  rw [abs_of_nonneg (by norm_num : (0 : ℝ) ≤ 3 / 5)]
  field_simp
  ring

/-- Claim C4 counterexample: a Glossy point with nonzero roughness, with unit
normal, outgoing and incoming directions whose hemisphere product is
negative, yet sample_bsdfcos_pdf returns a strictly nonzero value (the
microfacet term of sample_glossy_pdf survives because that function has no
hemisphere guard). -/
theorem c4_counterexample :
    dot3 ⟨0, 0, 1⟩ ⟨24 / 25, 0, -(7 / 25)⟩ * dot3 ⟨0, 0, 1⟩ ⟨0, 0, 1⟩ ≤ 0 ∧
    norm3 ⟨0, 0, 1⟩ = 1 ∧ norm3 ⟨24 / 25, 0, -(7 / 25)⟩ = 1 ∧
    glossyCE.m_type = .Glossy ∧
    glossyCE.sample_bsdfcos_pdf ⟨0, 0, 1⟩ ⟨0, 0, 1⟩ ⟨24 / 25, 0, -(7 / 25)⟩ ≠ 0 := by
  refine ⟨by norm_num [dot3], ?_, ?_, rfl, ?_⟩
  · rw [norm3, show dot3 (⟨0, 0, 1⟩ : Vec3) ⟨0, 0, 1⟩ = 1 by norm_num [dot3], Real.sqrt_one]
  · rw [norm3, show dot3 (⟨24 / 25, 0, -(7 / 25)⟩ : Vec3) ⟨24 / 25, 0, -(7 / 25)⟩ = 1 by
      norm_num [dot3], Real.sqrt_one]
  · rw [glossyCE_pdf_eval]
    exact div_ne_zero (by norm_num) (mul_ne_zero (by norm_num) Real.pi_ne_zero)

theorem cdfAux_cons (a w : ℝ) (ws : List ℝ) :
    cdfAux a (w :: ws) = (a + w) :: cdfAux (a + w) ws := rfl

theorem cdfAux_length (ws : List ℝ) : ∀ a : ℝ, (cdfAux a ws).length = ws.length := by
  induction ws with
  | nil => intro a; rfl
  | cons w ws ih => intro a; rw [cdfAux_cons]; simp [ih]

theorem cdfAux_append (l1 l2 : List ℝ) :
    ∀ a : ℝ, cdfAux a (l1 ++ l2) = cdfAux a l1 ++ cdfAux (a + l1.sum) l2 := by
  induction l1 with
  | nil => intro a; simp [cdfAux]
  | cons w l1 ih =>
    intro a
    rw [List.cons_append, cdfAux_cons, ih (a + w), cdfAux_cons]
    rw [List.sum_cons, add_assoc]
    simp

theorem cdfAux_getLast? (ws : List ℝ) (h : ws ≠ []) :
    ∀ a : ℝ, (cdfAux a ws).getLast? = some (a + ws.sum) := by
  obtain ⟨init, wl, rfl⟩ : ∃ init wl, ws = init ++ [wl] :=
    ⟨ws.dropLast, ws.getLast h, (List.dropLast_append_getLast h).symm⟩
  intro a
  rw [cdfAux_append, show cdfAux (a + init.sum) [wl] = [a + init.sum + wl] from rfl]
  rw [List.getLast?_concat]
  simp [List.sum_append, add_assoc]

theorem cdfAux_mem_le (ws : List ℝ) :
    ∀ (a x : ℝ), (∀ w ∈ ws, 0 ≤ w) → x ∈ cdfAux a ws → x ≤ a + ws.sum := by
  induction ws with
  | nil => intro a x _ hx; cases hx
  | cons w ws ih =>
    intro a x hnn hx
    rw [cdfAux_cons] at hx
    have hws : ∀ y ∈ ws, 0 ≤ y := fun y hy => hnn y (List.mem_cons_of_mem _ hy)
    have hsum : 0 ≤ ws.sum := List.sum_nonneg hws
    rcases List.mem_cons.mp hx with h | h
    · subst h; rw [List.sum_cons]; linarith
    · have := ih (a + w) x hws h
      rw [List.sum_cons]; linarith

theorem getLastD_le_sum (ws : List ℝ) (hnn : ∀ w ∈ ws, 0 ≤ w) : ws.getLastD 0 ≤ ws.sum := by
  induction ws with
  | nil => simp
  | cons w ws ih =>
    rw [List.getLastD_cons]
    have hws : ∀ y ∈ ws, 0 ≤ y := fun y hy => hnn y (List.mem_cons_of_mem _ hy)
    cases ws with
    | nil => simp
    | cons w2 ws2 =>
      have h1 : (w2 :: ws2).getLastD w = (w2 :: ws2).getLastD 0 := by
        rw [List.getLastD_cons, List.getLastD_cons]
      have hw : 0 ≤ w := hnn w (List.mem_cons_self _ _)
      have h2 := ih hws
      rw [h1, List.sum_cons]
      linarith

theorem takeWhile_append_last (p : ℝ → Bool) (l : List ℝ) (x : ℝ)
    (hl : ∀ y ∈ l, p y = true) (hx : p x = false) : (l ++ [x]).takeWhile p = l := by
  induction l with
  | nil => simp [List.takeWhile, hx]
  | cons a l ih =>
    rw [List.cons_append]
    rw [List.takeWhile_cons, hl a (List.mem_cons_self _ _)]
    simp only [ite_true]
    rw [ih (fun y hy => hl y (List.mem_cons_of_mem _ hy))]

theorem pdf_sum_telescope (cdf : List ℝ) :
    ∀ n : ℕ, 1 ≤ n →
      (∑ i ∈ Finset.range n, sample_discrete_pdf cdf i) = cdf.getD (n - 1) 0 := by
  intro n hn
  induction n with
  | zero => omega
  | succ k ih =>
    rcases Nat.eq_or_lt_of_le hn with h1 | h1
    · rw [← h1]
      simp [sample_discrete_pdf]
    · have hk : 1 ≤ k := by omega
      rw [Finset.sum_range_succ, ih hk]
      rw [sample_discrete_pdf, if_neg (by omega)]
      rw [show k + 1 - 1 = k from rfl]
      ring

theorem getD_length_sub_one (l : List ℝ) (h : l ≠ []) :
    l.getD (l.length - 1) 0 = l.getLastD 0 := by
  induction l with
  | nil => cases h rfl
  | cons a l ih =>
    cases l with
    | nil => rfl
    | cons b l2 =>
      have h1 : (a :: b :: l2).length - 1 = (b :: l2).length - 1 + 1 := by
        simp
      rw [h1, List.getD_cons_succ, ih (by simp), List.getLastD_cons,
        List.getLastD_cons, List.getLastD_cons]

/-- Claim C5 (amended): over a non-empty weight list with non-negative
entries whose first weight is positive and whose last weight is at least the
0.00001 clamp slack of sample_discrete, the discrete sampler returns index 0
at r = 0 and the last index for every r at the top of the unit interval, and
the per-index pdf telescopes to the final cumulative total. -/
theorem c5_theorem (ws : List ℝ) (hne : ws ≠ []) (hnn : ∀ w ∈ ws, 0 ≤ w)
    (hhead : 0 < ws.headD 0) (hlast : 0.00001 ≤ ws.getLastD 0) :
    sample_discrete (cdfFromWeights ws) 0 = some 0 ∧
    (∀ r : ℝ, 1 - 0.00001 / ws.sum ≤ r → r < 1 →
      sample_discrete (cdfFromWeights ws) r = some (ws.length - 1)) ∧
    (∑ i ∈ Finset.range (cdfFromWeights ws).length,
        sample_discrete_pdf (cdfFromWeights ws) i) =
      (cdfFromWeights ws).getLastD 0 := by
  have hsum0 : 0 ≤ ws.sum := List.sum_nonneg hnn
  have hTge : 0.00001 ≤ ws.sum := le_trans hlast (getLastD_le_sum ws hnn)
  have hglast : (cdfFromWeights ws).getLast? = some (0 + ws.sum) := cdfAux_getLast? ws hne 0
  refine ⟨?_, ?_, ?_⟩
  · obtain ⟨w0, ws', rfl⟩ := List.exists_cons_of_ne_nil hne
    simp only [List.headD_cons] at hhead
    have hglast' := hglast
    simp only [sample_discrete, hglast']
    rw [if_neg (by push_neg; linarith)]
    have hr1 : rustClamp (0 * (0 + (w0 :: ws').sum)) 0 ((0 + (w0 :: ws').sum) - 0.00001) =
        0 := by
      rw [rustClamp, zero_mul, min_eq_left (by linarith), max_self]
    rw [hr1]
    rw [show cdfFromWeights (w0 :: ws') = (0 + w0) :: cdfAux (0 + w0) ws' from rfl]
    rw [List.takeWhile_cons, decide_eq_false (by linarith : ¬ (0 + w0 ≤ (0 : ℝ)))]
    simp
  · intro r hr hrlt
    obtain ⟨init, wl, hws⟩ : ∃ init wl, ws = init ++ [wl] :=
      ⟨ws.dropLast, ws.getLast hne, (List.dropLast_append_getLast hne).symm⟩
    subst hws
    have hsum : (init ++ [wl]).sum = init.sum + wl := by simp
    have hwl : 0.00001 ≤ wl := by
      rw [List.getLastD_concat] at hlast
      exact hlast
    have hinit0 : ∀ y ∈ init, 0 ≤ y := fun y hy => hnn y (List.mem_append_left _ hy)
    have hinitsum : 0 ≤ init.sum := List.sum_nonneg hinit0
    have hT : (0 : ℝ) < (init ++ [wl]).sum := by rw [hsum]; linarith
    have hrT : (init ++ [wl]).sum - 0.00001 ≤ r * (init ++ [wl]).sum := by
      have h2 := mul_le_mul_of_nonneg_right hr (le_of_lt hT)
      rw [sub_mul, one_mul, div_mul_cancel₀ _ (ne_of_gt hT)] at h2
      linarith
    simp only [sample_discrete, hglast]
    rw [if_neg (by push_neg; linarith)]
    have hclamp : rustClamp (r * (0 + (init ++ [wl]).sum)) 0
        ((0 + (init ++ [wl]).sum) - 0.00001) = (0 + (init ++ [wl]).sum) - 0.00001 := by
      rw [rustClamp, min_eq_right (by linarith), max_eq_right (by linarith)]
    rw [hclamp]
    rw [show cdfFromWeights (init ++ [wl]) = cdfAux 0 init ++ [0 + init.sum + wl] from by
      rw [cdfFromWeights, cdfAux_append]; rfl]
    rw [takeWhile_append_last _ _ _ ?hall ?hxf]
    case hall =>
      intro y hy
      rw [decide_eq_true_eq]
      have hy2 := cdfAux_mem_le init 0 y hinit0 hy
      rw [hsum]
      linarith
    case hxf =>
      rw [decide_eq_false_iff_not]
      rw [hsum]
      intro hcon
      linarith
    rw [cdfAux_length]
    simp [List.length_append, cdfAux_length]
  · have hlen1 : 1 ≤ (cdfFromWeights ws).length := by
      rw [cdfFromWeights, cdfAux_length]
      cases ws with
      | nil => cases hne rfl
      | cons w ws' => simp
    have hne2 : cdfFromWeights ws ≠ [] := by
      cases ws with
      | nil => cases hne rfl
      | cons w ws' => exact List.cons_ne_nil _ _
    rw [pdf_sum_telescope _ _ hlen1, getD_length_sub_one _ hne2]

/-- Claim C5 counterexample: the weights 0 and 1 are non-negative and give a
non-empty distribution, yet sample_discrete at r = 0 returns index 1, not
index 0 (the partition point skips the zero-weight leading bin). -/
theorem c5_counterexample :
    (∀ w ∈ [(0 : ℝ), 1], 0 ≤ w) ∧ cdfFromWeights [(0 : ℝ), 1] ≠ [] ∧
    sample_discrete (cdfFromWeights [(0 : ℝ), 1]) 0 = some 1 := by
  refine ⟨?_, by simp [cdfFromWeights, cdfAux], ?_⟩
  · intro w hw
    simp only [List.mem_cons, List.not_mem_nil, or_false] at hw
    rcases hw with h | h <;> simp [h]
  · have hgl := cdfAux_getLast? [(0 : ℝ), 1] (by simp) 0
    simp only [List.sum_cons, List.sum_nil] at hgl
    simp only [sample_discrete, cdfFromWeights, hgl]
    rw [if_neg (by norm_num)]
    have hcl : rustClamp (0 * (0 + (0 + (1 + 0)))) 0 ((0 + (0 + (1 + 0))) - 0.00001) =
        (0 : ℝ) := by
      rw [rustClamp]
      norm_num
    rw [hcl]
    rw [show cdfAux (0 : ℝ) [0, 1] = [(0 : ℝ) + 0, 0 + 0 + 1] from rfl]
    rw [List.takeWhile_cons, decide_eq_true (by norm_num : ((0 : ℝ) + 0 ≤ 0))]
    simp only [if_true]
    rw [List.takeWhile_cons, decide_eq_false (by norm_num : ¬ ((0 : ℝ) + 0 + 1 ≤ 0))]
    simp

/-- Claim C5 witness: the weights one half and one meet the amended
hypotheses; the sampler returns index 0 at r = 0, index 1 near the top of
the unit interval, and the pdf totals the final cumulative entry. -/
theorem c5_witness :
    sample_discrete (cdfFromWeights [(1 : ℝ) / 2, 1]) 0 = some 0 ∧
    sample_discrete (cdfFromWeights [(1 : ℝ) / 2, 1]) 0.999995 = some 1 ∧
    (∑ i ∈ Finset.range (cdfFromWeights [(1 : ℝ) / 2, 1]).length,
        sample_discrete_pdf (cdfFromWeights [(1 : ℝ) / 2, 1]) i) =
      (cdfFromWeights [(1 : ℝ) / 2, 1]).getLastD 0 := by
  have h := c5_theorem [(1 : ℝ) / 2, 1] (by simp)
    (by
      intro w hw
      simp only [List.mem_cons, List.not_mem_nil, or_false] at hw
      rcases hw with h | h <;> simp [h])
    (by norm_num)
    (by rw [List.getLastD_cons, List.getLastD_cons]; norm_num)
  refine ⟨h.1, ?_, h.2.2⟩
  have h2 := h.2.1 0.999995 (by simp only [List.sum_cons, List.sum_nil]; norm_num)
    (by norm_num)
  simpa using h2

theorem mapIdx_get? {α β : Type} (l : List α) :
    ∀ (f : ℕ → α → β) (i : ℕ), (l.mapIdx f).get? i = (l.get? i).map (f i) := by
  induction l with
  | nil => intro f i; simp
  | cons a l ih =>
    intro f i
    rw [List.mapIdx_cons]
    cases i with
    | zero => simp
    | succ n => simp [ih]

/-- Claim C9 (amended): a call to raytrace_samples made while the sample
counter is below the target adds exactly one per-pixel radiance sample into
the accumulation buffer (every entry becomes its old value plus the new
pixel sample; entries are never replaced) and increments the counter by one;
a call at or past the target is a no-op. -/
theorem c9_theorem (scene : Scene) (state : RaytraceState) (params : RaytraceParams)
    (shader : Ray → (ℕ → ℝ) → ℕ → Vec4) :
    (state.samples < params.samples →
      (raytrace_samples scene state params shader).samples = state.samples + 1 ∧
      (raytrace_samples scene state params shader).image.length = state.image.length ∧
      ∀ idx : ℕ, (raytrace_samples scene state params shader).image.get? idx =
        (state.image.get? idx).map
          (fun v => v + pixel_sample scene state params shader idx)) ∧
    (params.samples ≤ state.samples →
      raytrace_samples scene state params shader = state) := by
  constructor
  · intro h
    rw [raytrace_samples, if_neg (not_le.mpr h)]
    refine ⟨rfl, by simp, fun idx => mapIdx_get? state.image _ idx⟩
  · intro h
    rw [raytrace_samples, if_pos h]

/-- Saturated render state: one pixel, one sample already accumulated. -/
def stateC9 : RaytraceState :=
  { width := 1, height := 1, samples := 1, image := [⟨5, 0, 0, 0⟩], rngs := fun _ _ => 0 }

/-- Fresh render state: one pixel, no samples yet. -/
def stateC9b : RaytraceState :=
  { width := 1, height := 1, samples := 0, image := [⟨5, 0, 0, 0⟩], rngs := fun _ _ => 0 }

/-- One-sample parameter set. -/
def paramsC9 : RaytraceParams := { RaytraceParams.default with samples := 1 }

/-- Shader returning black. -/
def shaderC9 : Ray → (ℕ → ℝ) → ℕ → Vec4 := fun _ _ _ => zero4

/-- Claim C9 counterexample: a call on a state whose counter has reached the
target changes nothing, so it neither adds a sample per pixel nor increments
the counter. -/
theorem c9_counterexample :
    raytrace_samples sceneA stateC9 paramsC9 shaderC9 = stateC9 ∧
    stateC9.samples = 1 ∧ paramsC9.samples = 1 := by
  refine ⟨?_, rfl, rfl⟩
  rw [raytrace_samples, if_pos (show paramsC9.samples ≤ stateC9.samples from le_refl _)]

/-- Claim C9 witness: on the fresh one-pixel state the call increments the
counter to one and adds the pixel sample onto the single buffer entry. -/
theorem c9_witness :
    (raytrace_samples sceneA stateC9b paramsC9 shaderC9).samples = stateC9b.samples + 1 ∧
    (raytrace_samples sceneA stateC9b paramsC9 shaderC9).image.get? 0 =
      (stateC9b.image.get? 0).map
        (fun v => v + pixel_sample sceneA stateC9b paramsC9 shaderC9 0) := by
  have h := (c9_theorem sceneA stateC9b paramsC9 shaderC9).1 (by decide)
  exact ⟨h.1, h.2.2 0⟩

/-- Trivial participating-media kernels for the concrete environment. -/
def volK0 : VolKernels :=
  { sample_transmittance := fun _ _ _ _ => 0
    eval_transmittance := fun _ _ => zero3
    sample_transmittance_pdf := fun _ _ _ => 0
    sample_scattering := fun _ _ _ => zero3
    eval_scattering := fun _ _ _ => zero3
    sample_scattering_pdf := fun _ _ _ => 0 }

/-- Concrete intersector: rays from the plane origin hit the half-opaque
instance 0, advanced rays hit the opaque emissive instance 1. -/
def intersectA : Ray → BvhIntersection := fun r => if r.origin.z = 0 then interA0 else interA1

/-- Concrete trace environment over sceneA (which has no lights). -/
def envA : TraceEnv :=
  { scene := sceneA, intersect := intersectA, intersect_instance := fun _ _ => default,
    vol := volK0 }

/-- The resolved material point of instance 0. -/
def mpA0 : MaterialPoint :=
  { m_type := .Matte, emission := zero3, color := zero3, roughness := MIN_ROUGHNESS,
    metallic := 0, ior := 1.5, density := zero3, scattering := zero3, scanisotropy := 0,
    trdepth := 0.01, opacity := 1 / 2 }

/-- The resolved material point of instance 1. -/
def mpA1 : MaterialPoint :=
  { m_type := .Matte, emission := ⟨1, 1, 1⟩, color := ⟨1 / 2, 1 / 2, 1 / 2⟩,
    roughness := 1 / 4, metallic := 0, ior := 1.5, density := zero3, scattering := zero3,
    scanisotropy := 0, trdepth := 0.01, opacity := 1 }

theorem evalMaterial_A0 : sceneA.eval_material interA0 = mpA0 := by
  simp only [Scene.eval_material, sceneA, interA0, mA0, Material.default, triShape]
  norm_num [Scene.eval_texture, Scene.eval_texcoord, Scene.eval_color, List.getD,
    cmul3, one3, one4, zero3, Vec4.xyz, rustClamp, mpA0, MIN_ROUGHNESS, min_def, max_def]
  intro h
  rcases h with h | h | h <;> cases h

theorem evalMaterial_A1 : sceneA.eval_material interA1 = mpA1 := by
  simp only [Scene.eval_material, sceneA, interA1, mA1, Material.default, triShape]
  norm_num [Scene.eval_texture, Scene.eval_texcoord, Scene.eval_color, List.getD,
    cmul3, one3, one4, zero3, Vec4.xyz, rustClamp, mpA1, MIN_ROUGHNESS, min_def, max_def]
  intro h
  rcases h with h | h | h <;> cases h

theorem vec3_add_def (a b : Vec3) : a + b = ⟨a.x + b.x, a.y + b.y, a.z + b.z⟩ := rfl

theorem vec3_sub_def (a b : Vec3) : a - b = ⟨a.x - b.x, a.y - b.y, a.z - b.z⟩ := rfl

theorem vec3_neg_def (a : Vec3) : -a = ⟨-a.x, -a.y, -a.z⟩ := rfl

theorem vec3_mul_def (a : Vec3) (s : ℝ) : a * s = ⟨a.x * s, a.y * s, a.z * s⟩ := rfl

theorem real_mul_vec3_def (s : ℝ) (a : Vec3) : s * a = ⟨s * a.x, s * a.y, s * a.z⟩ := rfl

theorem vec3_div_def (a : Vec3) (s : ℝ) : a / s = ⟨a.x / s, a.y / s, a.z / s⟩ := rfl

theorem vec4_mul_def (a : Vec4) (s : ℝ) : a * s = ⟨a.x * s, a.y * s, a.z * s, a.w * s⟩ := rfl

theorem vec4_add_def (a b : Vec4) : a + b = ⟨a.x + b.x, a.y + b.y, a.z + b.z, a.w + b.w⟩ := rfl

theorem shadingPos_A0 : sceneA.eval_shading_position interA0 = ⟨0, 0, 0⟩ := by
  simp only [Scene.eval_shading_position, Scene.eval_position, sceneA, interA0, triShape,
    List.getD, iGet]
  norm_num [interpolate_triangle3, transform_point, idFrame, zero2, vec3_add_def,
    vec3_mul_def, List.getD]

theorem shadingPos_A1 : sceneA.eval_shading_position interA1 = ⟨0, 0, 0⟩ := by
  simp only [Scene.eval_shading_position, Scene.eval_position, sceneA, interA1, triShape,
    List.getD, iGet]
  norm_num [interpolate_triangle3, transform_point, idFrame, zero2, vec3_add_def,
    vec3_mul_def, List.getD]

def instA1 : Instance := ⟨idFrame, 0, 1⟩

theorem triShape_eval_normal (inst : Instance) (h : inst.frame = idFrame) :
    triShape.eval_normal inst 0 = ⟨0, 0, 1⟩ := by
  have e1 : iGet triShape.positions (triShape.triangles.getD 0 default).x = ⟨0, 0, 0⟩ := rfl
  have e2 : iGet triShape.positions (triShape.triangles.getD 0 default).y = ⟨1, 0, 0⟩ := rfl
  have e3 : iGet triShape.positions (triShape.triangles.getD 0 default).z = ⟨0, 1, 0⟩ := rfl
  simp only [Shape.eval_normal]
  rw [if_pos (show triShape.triangles ≠ [] by simp [triShape])]
  rw [e1, e2, e3, h]
  norm_num [transform_normal_frame, triangle_normal, cross3, normalize3, norm3, dot3,
    transform_vector_frame, idFrame, vec3_add_def, vec3_sub_def, vec3_mul_def,
    vec3_div_def, Real.sqrt_one]

theorem evalNormal_A1 : sceneA.eval_normal instA1 0 zero2 = ⟨0, 0, 1⟩ := by
  simp only [Scene.eval_normal]
  rw [show sceneA.shapes.getD instA1.shape default = triShape from rfl]
  rw [if_pos (show triShape.normals = [] from rfl)]
  exact triShape_eval_normal _ rfl

theorem shadingNormal_A1 : sceneA.eval_shading_normal interA1 ⟨0, 0, -1⟩ = ⟨0, 0, -1⟩ := by
  simp only [Scene.eval_shading_normal]
  rw [show sceneA.instances.getD interA1.inst default = instA1 from rfl]
  rw [show sceneA.shapes.getD instA1.shape default = triShape from rfl]
  rw [show sceneA.materials.getD instA1.material default = mA1 from rfl]
  rw [if_pos (Or.inl (show triShape.triangles ≠ [] by simp [triShape]))]
  rw [if_pos (show mA1.normal_tex = INVALID from rfl)]
  rw [show interA1.element = 0 from rfl, show interA1.uv = zero2 from rfl]
  rw [evalNormal_A1]
  rw [if_neg ?hng]
  case hng =>
    rintro (hc | hc)
    · norm_num [dot3] at hc
    · exact absurd hc (by decide)
  norm_num [vec3_neg_def]

/-! Concrete rays, random streams and loop states for the loop claims. -/

/-- Ray from the plane origin along +z. -/
def rayA : Ray := Ray.new ⟨0, 0, 0⟩ ⟨0, 0, 1⟩

/-- Ray from z = 1 along +z (its origin is off the z = 0 plane, so it hits
the opaque emissive instance directly). -/
def rayB : Ray := Ray.new ⟨0, 0, 1⟩ ⟨0, 0, 1⟩

/-- Random stream whose first draw is 0.9 and all further draws are 0. -/
def rngC : ℕ → ℝ := fun n => if n = 0 then 0.9 else 0

/-- Constant-zero random stream. -/
def rngZ : ℕ → ℝ := fun _ => 0

/-- Constant 0.6 random stream: every coin flip chooses light sampling. -/
def rngH : ℕ → ℝ := fun _ => 0.6

/-- Params with a bounce budget of two. -/
def paramsB : RaytraceParams := { RaytraceParams.default with bounces := 2 }

/-- Initial shade_naive state on rayA. -/
def stN0 : NaiveState :=
  { radiance := zero3, weight := one3, bounce := 0, hit_alpha := 0, ray := rayA, k := 0 }

/-- The state after the alpha-skip iteration of shade_naive on stN0: the ray
origin has advanced past the surface and the bounce counter has dropped to
minus one. -/
def stN1 : NaiveState :=
  { radiance := zero3, weight := one3, bounce := -1, hit_alpha := 0,
    ray := ⟨⟨0, 0, 1 / 100⟩, ⟨0, 0, 1⟩, RAY_EPS, f32Max⟩, k := 1 }

/-- The state at the break following the real emissive hit after the skip:
radiance picked up the emission, the throughput collapsed to zero, and
hit_alpha is still zero. -/
def stN2 : NaiveState :=
  { radiance := ⟨1, 1, 1⟩, weight := ⟨0, 0, 0⟩, bounce := -1, hit_alpha := 0,
    ray := ⟨⟨0, 0, 1 / 100⟩, ⟨0, 0, 1⟩, RAY_EPS, f32Max⟩, k := 4 }

/-- Initial shade_raytrace state on rayA. -/
def stR0 : RayState :=
  { radiance := zero3, weight := one3, volume_stack := [], bounce := 0, hit_alpha := 0,
    ray := rayA, k := 0 }

/-! Pointwise evaluations of the shading pipeline on the concrete scene. -/

theorem normalize3_down : normalize3 (⟨0, 0, -1⟩ : Vec3) = ⟨0, 0, -1⟩ := by
  simp only [normalize3, norm3, dot3]
  norm_num [vec3_div_def, Real.sqrt_one]

theorem basis_fromz_down :
    basis_fromz (⟨0, 0, -1⟩ : Vec3) = ⟨⟨1, 0, 0⟩, ⟨0, -1, 0⟩, ⟨0, 0, -1⟩⟩ := by
  simp only [basis_fromz, normalize3_down]
  rw [if_pos (show ((⟨0, 0, -1⟩ : Vec3)).z < 0 by norm_num)]
  norm_num [Mat3.mk.injEq, Vec3.mk.injEq]

theorem hemiCos_down : sample_hemisphere_cos ⟨0, 0, -1⟩ ⟨0, 0⟩ = ⟨1, 0, 0⟩ := by
  simp only [sample_hemisphere_cos, basis_fromz_down, transform_direction_mat,
    transform_vector_mat, normalize3, norm3, dot3]
  norm_num [Real.sqrt_zero, Real.sqrt_one, Real.cos_zero, Real.sin_zero, vec3_mul_def,
    vec3_add_def, vec3_div_def, Vec3.mk.injEq]

theorem sampleBsdf_A1 : mpA1.sample_bsdfcos ⟨0, 0, -1⟩ ⟨0, 0, -1⟩ 0 ⟨0, 0⟩ = ⟨1, 0, 0⟩ := by
  show mpA1.sample_matte ⟨0, 0, -1⟩ ⟨0, 0, -1⟩ ⟨0, 0⟩ = ⟨1, 0, 0⟩
  simp only [MaterialPoint.sample_matte, upNormal]
  rw [if_neg (show ¬ dot3 ⟨0, 0, -1⟩ ⟨0, 0, -1⟩ ≤ 0 by norm_num [dot3])]
  exact hemiCos_down

theorem evalBsdf_A1_zero : mpA1.eval_bsdfcos ⟨0, 0, -1⟩ ⟨0, 0, -1⟩ ⟨1, 0, 0⟩ = zero3 := by
  simp only [MaterialPoint.eval_bsdfcos]
  rw [if_neg (show ¬ mpA1.roughness = 0 by norm_num [mpA1])]
  show mpA1.eval_matte ⟨0, 0, -1⟩ ⟨0, 0, -1⟩ ⟨1, 0, 0⟩ = zero3
  simp only [MaterialPoint.eval_matte]
  rw [if_pos (show dot3 ⟨0, 0, -1⟩ ⟨1, 0, 0⟩ * dot3 ⟨0, 0, -1⟩ ⟨0, 0, -1⟩ ≤ 0 by
    norm_num [dot3])]

theorem pdfBsdf_A1_zero : mpA1.sample_bsdfcos_pdf ⟨0, 0, -1⟩ ⟨0, 0, -1⟩ ⟨1, 0, 0⟩ = 0 := by
  simp only [MaterialPoint.sample_bsdfcos_pdf]
  rw [if_neg (show ¬ mpA1.roughness = 0 by norm_num [mpA1])]
  show mpA1.sample_matte_pdf ⟨0, 0, -1⟩ ⟨0, 0, -1⟩ ⟨1, 0, 0⟩ = 0
  simp only [MaterialPoint.sample_matte_pdf]
  rw [if_pos (show dot3 ⟨0, 0, -1⟩ ⟨1, 0, 0⟩ * dot3 ⟨0, 0, -1⟩ ⟨0, 0, -1⟩ ≤ 0 by
    norm_num [dot3])]

theorem evalEmission_A1 : mpA1.eval_emission ⟨0, 0, -1⟩ ⟨0, 0, -1⟩ = ⟨1, 1, 1⟩ := by
  simp only [MaterialPoint.eval_emission]
  rw [if_pos (show (0 : ℝ) ≤ dot3 ⟨0, 0, -1⟩ ⟨0, 0, -1⟩ by norm_num [dot3])]
  rfl

theorem not_delta_mpA1 : ¬ is_delta mpA1 := by
  rintro (⟨h, _⟩ | ⟨h, _⟩ | ⟨h, _⟩ | h) <;> cases h

theorem not_null_100 : ¬ is_null (⟨1, 0, 0⟩ : Vec3) f32Epsilon := by
  simp only [is_null, norm3, dot3]
  norm_num [f32Epsilon, Real.sqrt_one]

/-! Single iterations of the integrator loops on the concrete scene. -/

theorem intersectA_z0 : envA.intersect stN0.ray = interA0 := by
  show intersectA stN0.ray = interA0
  simp only [intersectA]
  rw [if_pos (show stN0.ray.origin.z = 0 from rfl)]

theorem intersectA_z0R : envA.intersect stR0.ray = interA0 := by
  show intersectA stR0.ray = interA0
  simp only [intersectA]
  rw [if_pos (show stR0.ray.origin.z = 0 from rfl)]

theorem intersectA_z1 : envA.intersect stN1.ray = interA1 := by
  show intersectA stN1.ray = interA1
  simp only [intersectA]
  rw [if_neg (show ¬ stN1.ray.origin.z = 0 by norm_num [stN1])]

/-- The alpha-cutout iteration of shade_naive: the half-opaque hit with the
0.9 draw takes the skip branch and decrements the bounce counter to -1. -/
theorem stepNaive_skip : shadeNaiveStep envA rngC stN0 = .cont stN1 := by
  simp only [shadeNaiveStep, intersectA_z0]
  rw [if_neg (show ¬¬(interA0.hit = true) from fun h => h rfl)]
  rw [show envA.scene = sceneA from rfl, evalMaterial_A0, shadingPos_A0]
  rw [if_pos (show mpA0.opacity < 1 ∧ mpA0.opacity ≤ rngC stN0.k by
    norm_num [mpA0, rngC, stN0])]
  norm_num [stN0, stN1, rayA, Ray.new, vec3_add_def, vec3_mul_def,
    StepOut.cont.injEq, NaiveState.mk.injEq, Ray.mk.injEq, Vec3.mk.injEq]

/-- The real emissive hit after the skip: radiance picks up the emission but
the bounce counter is -1, so the hit_alpha flag is not set; the matte sample
leaves the hemisphere guard of eval/pdf, collapsing the weight to zero and
breaking out. -/
theorem stepNaive_hit : shadeNaiveStep envA rngC stN1 = .brk stN2 := by
  have hout : -stN1.ray.direction = (⟨0, 0, -1⟩ : Vec3) := by
    norm_num [stN1, vec3_neg_def, Vec3.mk.injEq]
  simp only [shadeNaiveStep, intersectA_z1]
  rw [if_neg (show ¬¬(interA1.hit = true) from fun h => h rfl)]
  rw [hout, show envA.scene = sceneA from rfl, evalMaterial_A1, shadingPos_A1,
    shadingNormal_A1]
  rw [if_neg (show ¬ (mpA1.opacity < 1 ∧ mpA1.opacity ≤ rngC stN1.k) by norm_num [mpA1])]
  rw [if_neg (show ¬ mpA1.opacity < 1 by norm_num [mpA1])]
  rw [if_neg (show ¬ stN1.bounce = 0 by norm_num [stN1])]
  rw [if_pos not_delta_mpA1]
  rw [show rngC stN1.k = (0 : ℝ) from rfl, show rngC (stN1.k + 1) = (0 : ℝ) from rfl,
    show rngC (stN1.k + 2) = (0 : ℝ) from rfl]
  rw [evalEmission_A1, sampleBsdf_A1]
  rw [if_neg not_null_100]
  rw [evalBsdf_A1_zero, pdfBsdf_A1_zero]
  simp only [naiveTail]
  rw [if_pos (Or.inl (show is_null (cmul3 stN1.weight (zero3 / (0 : ℝ))) f32Epsilon by
    norm_num [is_null, norm3, dot3, cmul3, stN1, one3, zero3, vec3_div_def, f32Epsilon,
      Real.sqrt_zero]))]
  norm_num [stN1, stN2, cmul3, zero3, one3, vec3_add_def, vec3_div_def,
    StepOut.brk.injEq, NaiveState.mk.injEq, Vec3.mk.injEq]

/-- The state after the alpha-skip iteration of shade_raytrace on stR0. -/
def stR1 : RayState :=
  { radiance := zero3, weight := one3, volume_stack := [], bounce := -1, hit_alpha := 0,
    ray := ⟨⟨0, 0, 1 / 100⟩, ⟨0, 0, 1⟩, RAY_EPS, f32Max⟩, k := 1 }

/-- The alpha-cutout iteration of shade_raytrace: same skip branch, same
bounce decrement to -1. -/
theorem stepRay_skip : shadeRaytraceStep envA rngC stR0 = .cont stR1 := by
  have h1 : shadeRaytraceStep envA rngC stR0 = raySurface envA rngC stR0 interA0 stR0.k := by
    simp only [shadeRaytraceStep, intersectA_z0R]
    rw [if_neg (show ¬¬(interA0.hit = true) from fun h => h rfl)]
    rw [show stR0.volume_stack = ([] : List MaterialPoint) from rfl]
  rw [h1]
  simp only [raySurface]
  rw [show envA.scene = sceneA from rfl, evalMaterial_A0, shadingPos_A0]
  rw [if_pos (show mpA0.opacity < 1 ∧ mpA0.opacity ≤ rngC stR0.k by
    norm_num [mpA0, rngC, stR0])]
  norm_num [stR0, stR1, rayA, Ray.new, vec3_add_def, vec3_mul_def,
    StepOut.cont.injEq, RayState.mk.injEq, Ray.mk.injEq, Vec3.mk.injEq]

/-- One unrolling of the shade_naive driver loop. -/
theorem shadeNaiveLoop_succ (env : TraceEnv) (params : RaytraceParams) (rng : ℕ → ℝ)
    (n : ℕ) (st : NaiveState) :
    shadeNaiveLoop env params rng (n + 1) st =
      if st.bounce < params.bounces then
        match shadeNaiveStep env rng st with
        | .cont st1 => shadeNaiveLoop env params rng n st1
        | .brk st1 => .ok ⟨st1.radiance.x, st1.radiance.y, st1.radiance.z, st1.hit_alpha⟩
        | .panic => .panicked
      else .ok ⟨st.radiance.x, st.radiance.y, st.radiance.z, st.hit_alpha⟩ := rfl

/-- One unrolling of the shade_raytrace driver loop. -/
theorem shadeRaytraceLoop_succ (env : TraceEnv) (params : RaytraceParams) (rng : ℕ → ℝ)
    (n : ℕ) (st : RayState) :
    shadeRaytraceLoop env params rng (n + 1) st =
      if st.bounce < params.bounces then
        match shadeRaytraceStep env rng st with
        | .cont st1 => shadeRaytraceLoop env params rng n st1
        | .brk st1 => .ok ⟨st1.radiance.x, st1.radiance.y, st1.radiance.z, st1.hit_alpha⟩
        | .panic => .panicked
      else .ok ⟨st.radiance.x, st.radiance.y, st.radiance.z, st.hit_alpha⟩ := rfl

/-- Claim C2 (refuted: code bug).  The claim states that the stochastic
alpha-cutout branch retries with the bounce counter unchanged.  In the code
the branch runs `bounce -= 1; continue` inside a while loop, so the
end-of-iteration increment is skipped and the counter has a net decrement:
on the concrete half-opaque hit, both shade_naive and shade_raytrace leave
the skip iteration with bounce -1 where they entered it with bounce 0. -/
theorem c2_theorem :
    stN0.bounce = 0 ∧ stR0.bounce = 0 ∧
    shadeNaiveStep envA rngC stN0 = .cont stN1 ∧ stN1.bounce = stN0.bounce - 1 ∧
    shadeRaytraceStep envA rngC stR0 = .cont stR1 ∧ stR1.bounce = stR0.bounce - 1 :=
  ⟨rfl, rfl, stepNaive_skip, by norm_num [stN0, stN1], stepRay_skip,
    by norm_num [stR0, stR1]⟩

/-- Claim C3 (refuted: code bug).  The claim states that the returned alpha
channel is 1 whenever the path has at least one real (non-alpha-skipped)
surface hit, in particular after alpha-skipped hits.  On the concrete trace,
an alpha-skipped hit is followed by a real hit on the fully opaque emissive
material: the radiance output (1,1,1) comes from that real hit, yet the
returned alpha is 0, because the skip decremented bounce to -1 and the
`bounce == 0` test guarding `hit_alpha = 1` fails on the real hit. -/
theorem c3_theorem :
    shade_naive envA paramsB rayA rngC 10 = .ok ⟨1, 1, 1, 0⟩ ∧
    mpA1.opacity = 1 ∧ mpA1.emission = ⟨1, 1, 1⟩ := by
  refine ⟨?_, rfl, rfl⟩
  show shadeNaiveLoop envA paramsB rngC (9 + 1) stN0 = .ok ⟨1, 1, 1, 0⟩
  rw [shadeNaiveLoop_succ]
  rw [if_pos (show stN0.bounce < paramsB.bounces by
    norm_num [stN0, paramsB, RaytraceParams.default])]
  rw [stepNaive_skip]
  show shadeNaiveLoop envA paramsB rngC (8 + 1) stN1 = .ok ⟨1, 1, 1, 0⟩
  rw [shadeNaiveLoop_succ]
  rw [if_pos (show stN1.bounce < paramsB.bounces by
    norm_num [stN1, paramsB, RaytraceParams.default])]
  rw [stepNaive_hit]
  rfl

/-! Russian roulette, MIS weighting and empty-light behaviour of the tails. -/

/-- Claim C7 (confirmed).  In both integrator tails, Russian roulette is
applied only on iterations with bounce > 3; the survival probability is
min(max channel of the weight, 0.99); when the draw is at least that
probability the path breaks, and on survival the weight is multiplied by
the reciprocal probability before the loop advances. -/
theorem c7_theorem (rng : ℕ → ℝ) (st : NaiveState) (str : RayState)
    (position incoming : Vec3) (k kr : ℕ)
    (hw : ¬ is_null st.weight f32Epsilon) (hwr : ¬ is_null str.weight f32Epsilon) :
    (st.bounce ≤ 3 → naiveTail rng st position incoming k =
      .cont { st with
        bounce := st.bounce + 1
        ray := ⟨position, incoming, st.ray.tmin, st.ray.tmax⟩
        k := k }) ∧
    (3 < st.bounce → min st.weight.vmax 0.99 ≤ rng k →
      naiveTail rng st position incoming k = .brk { st with k := k + 1 }) ∧
    (3 < st.bounce → rng k < min st.weight.vmax 0.99 →
      naiveTail rng st position incoming k =
        .cont { st with
          weight := st.weight * (1 / min st.weight.vmax 0.99)
          bounce := st.bounce + 1
          ray := ⟨position, incoming, st.ray.tmin, st.ray.tmax⟩
          k := k + 1 }) ∧
    (str.bounce ≤ 3 → raytraceTail rng str kr =
      .cont { str with
        bounce := str.bounce + 1
        k := kr }) ∧
    (3 < str.bounce → min str.weight.vmax 0.99 ≤ rng kr →
      raytraceTail rng str kr = .brk { str with k := kr + 1 }) ∧
    (3 < str.bounce → rng kr < min str.weight.vmax 0.99 →
      raytraceTail rng str kr =
        .cont { str with
          weight := str.weight * (1 / min str.weight.vmax 0.99)
          bounce := str.bounce + 1
          k := kr + 1 }) := by
  have hg : ¬ (is_null st.weight f32Epsilon ∨ ¬ is_finite3 st.weight) :=
    fun h => h.elim hw (fun h2 => h2 trivial)
  have hgr : ¬ (is_null str.weight f32Epsilon ∨ ¬ is_finite3 str.weight) :=
    fun h => h.elim hwr (fun h2 => h2 trivial)
  refine ⟨?_, ?_, ?_, ?_, ?_, ?_⟩
  · intro hb
    simp only [naiveTail]
    rw [if_neg hg, if_neg (not_lt.mpr hb)]
  · intro hb h2
    simp only [naiveTail]
    rw [if_neg hg, if_pos hb, if_pos h2]
  · intro hb h2
    simp only [naiveTail]
    rw [if_neg hg, if_pos hb, if_neg (not_le.mpr h2)]
  · intro hb
    simp only [raytraceTail]
    rw [if_neg hgr, if_neg (not_lt.mpr hb)]
  · intro hb h2
    simp only [raytraceTail]
    rw [if_neg hgr, if_pos hb, if_pos h2]
  · intro hb h2
    simp only [raytraceTail]
    rw [if_neg hgr, if_pos hb, if_neg (not_le.mpr h2)]

/-- A unit throughput is not a null vector. -/
theorem not_null_one3 : ¬ is_null one3 f32Epsilon := by
  simp only [is_null, norm3, dot3, one3, f32Epsilon]
  intro h
  have h1 : (1 : ℝ) ≤ Real.sqrt (1 * 1 + 1 * 1 + 1 * 1) := by
    have h2 := Real.sqrt_le_sqrt (show (1 : ℝ) ≤ 1 * 1 + 1 * 1 + 1 * 1 by norm_num)
    rwa [Real.sqrt_one] at h2
  have h3 := lt_of_le_of_lt h1 h
  norm_num at h3

/-- A shade_naive state deep enough in the path for Russian roulette. -/
def stW : NaiveState :=
  { radiance := zero3, weight := one3, bounce := 4, hit_alpha := 1, ray := rayA, k := 0 }

/-- A shade_raytrace state deep enough in the path for Russian roulette. -/
def strW : RayState :=
  { radiance := zero3, weight := one3, volume_stack := [], bounce := 4, hit_alpha := 1,
    ray := rayA, k := 0 }

/-- Constant-one random stream: every roulette draw kills the path. -/
def rngW : ℕ → ℝ := fun _ => 1

/-- Claim C7 witness: at bounce 4 with unit weight, a draw of 1 meets the
0.99 survival probability and both tails roulette-kill the path. -/
theorem c7_witness :
    3 < stW.bounce ∧ min stW.weight.vmax 0.99 ≤ rngW 0 ∧
    naiveTail rngW stW ⟨0, 0, 0⟩ ⟨1, 0, 0⟩ 0 = .brk { stW with k := 0 + 1 } ∧
    raytraceTail rngW strW 0 = .brk { strW with k := 0 + 1 } := by
  have hb : (3 : ℤ) < stW.bounce := by norm_num [stW]
  have hbr : (3 : ℤ) < strW.bounce := by norm_num [strW]
  have hp : min stW.weight.vmax 0.99 ≤ rngW 0 := by
    norm_num [stW, one3, Vec3.vmax, rngW, min_def, max_def]
  have hpr : min strW.weight.vmax 0.99 ≤ rngW 0 := by
    norm_num [strW, one3, Vec3.vmax, rngW, min_def, max_def]
  have h := c7_theorem rngW stW strW ⟨0, 0, 0⟩ ⟨1, 0, 0⟩ 0 0 not_null_one3 not_null_one3
  exact ⟨hb, hp, h.2.1 hb hp, h.2.2.2.2.1 hbr hpr⟩

/-- The throughput carried by a loop-iteration outcome (none on a panic). -/
def stepOutWeight : StepOut RayState → Option Vec3
  | .cont st => some st.weight
  | .brk st => some st.weight
  | .panic => none

theorem rayStackUpdate_weight (st : RayState) (m : MaterialPoint) (n o i : Vec3) :
    (rayStackUpdate st m n o i).weight = st.weight := by
  simp only [rayStackUpdate]
  split
  · split <;> rfl
  · rfl

theorem rayStackUpdate_bounce (st : RayState) (m : MaterialPoint) (n o i : Vec3) :
    (rayStackUpdate st m n o i).bounce = st.bounce := by
  simp only [rayStackUpdate]
  split
  · split <;> rfl
  · rfl

/-- Below the roulette threshold, the tail forwards the weight it is given
whether it breaks on a null weight or advances. -/
theorem raytraceTail_weight_le3 (rng : ℕ → ℝ) (st : RayState) (k : ℕ)
    (hb : st.bounce ≤ 3) :
    stepOutWeight (raytraceTail rng st k) = some st.weight := by
  simp only [raytraceTail]
  split
  · rfl
  · rw [if_neg (not_lt.mpr hb)]
    rfl

/-- Claim C6 (confirmed).  At a non-delta surface event, shade_raytrace
draws the incoming direction from the BSDF when the coin is below one half
and from the lights otherwise, and in both cases multiplies the throughput
by eval_bsdfcos / (0.5 * sample_bsdfcos_pdf + 0.5 * sample_lights_pdf),
all three evaluated at the single drawn direction.  (Stated below the
roulette threshold so the tail leaves the weight untouched.) -/
theorem c6_theorem (env : TraceEnv) (rng : ℕ → ℝ) (st : RayState)
    (intersection : BvhIntersection) (k k1 : ℕ)
    (outgoing position normal : Vec3) (material : MaterialPoint) (incoming : Vec3)
    (hout : outgoing = -st.ray.direction)
    (hpos : position = env.scene.eval_shading_position intersection)
    (hnor : normal = env.scene.eval_shading_normal intersection outgoing)
    (hmat : material = env.scene.eval_material intersection)
    (hop : ¬ (material.opacity < 1 ∧ material.opacity ≤ rng k))
    (hk1 : k1 = if material.opacity < 1 then k + 1 else k)
    (hnd : ¬ is_delta material)
    (hinc : (if rng k1 < 0.5 then
        some (material.sample_bsdfcos normal outgoing (rng (k1 + 1))
          ⟨rng (k1 + 2), rng (k1 + 3)⟩)
      else env.scene.sample_lights position (rng (k1 + 1)) (rng (k1 + 2))
          ⟨rng (k1 + 3), rng (k1 + 4)⟩) = some incoming)
    (hnn : ¬ is_null incoming f32Epsilon)
    (hb : st.bounce ≤ 3) :
    stepOutWeight (raySurface env rng st intersection k) =
      some (cmul3 st.weight
        (material.eval_bsdfcos normal outgoing incoming /
          (0.5 * material.sample_bsdfcos_pdf normal outgoing incoming +
            0.5 * env.scene.sample_lights_pdf env.intersect_instance position incoming))) := by
  subst hout hpos hnor hmat
  simp only [raySurface]
  rw [if_neg hop, if_pos hnd, ← hk1]
  by_cases hcoin : rng k1 < 0.5
  · rw [if_pos hcoin] at hinc
    have heq := Option.some.inj hinc
    rw [if_pos hcoin, heq]
    dsimp only
    rw [if_neg hnn]
    rw [raytraceTail_weight_le3]
    · simp only [rayStackUpdate_weight, apply_ite RayState.weight, ite_self]
    · simp only [rayStackUpdate_bounce, apply_ite RayState.bounce, ite_self]
      exact hb
  · rw [if_neg hcoin] at hinc
    rw [if_neg hcoin, hinc]
    dsimp only
    rw [if_neg hnn]
    rw [raytraceTail_weight_le3]
    · simp only [rayStackUpdate_weight, apply_ite RayState.weight, ite_self]
    · simp only [rayStackUpdate_bounce, apply_ite RayState.bounce, ite_self]
      exact hb

/-- Claim C6 witness: on the concrete opaque matte hit with an all-zero
random stream, the coin picks the BSDF strategy, the drawn direction is
(1,0,0), and the weight is the balance-heuristic combination at it. -/
theorem c6_witness :
    stepOutWeight (raySurface envA rngZ stR0 interA1 0) =
      some (cmul3 stR0.weight
        (mpA1.eval_bsdfcos ⟨0, 0, -1⟩ ⟨0, 0, -1⟩ ⟨1, 0, 0⟩ /
          (0.5 * mpA1.sample_bsdfcos_pdf ⟨0, 0, -1⟩ ⟨0, 0, -1⟩ ⟨1, 0, 0⟩ +
            0.5 * envA.scene.sample_lights_pdf envA.intersect_instance ⟨0, 0, 0⟩
              ⟨1, 0, 0⟩))) := by
  exact c6_theorem envA rngZ stR0 interA1 0 0 ⟨0, 0, -1⟩ ⟨0, 0, 0⟩ ⟨0, 0, -1⟩ mpA1 ⟨1, 0, 0⟩
    (by norm_num [stR0, rayA, Ray.new, vec3_neg_def, Vec3.mk.injEq])
    shadingPos_A1.symm shadingNormal_A1.symm evalMaterial_A1.symm
    (by norm_num [mpA1])
    (by rw [if_neg (show ¬ mpA1.opacity < 1 by norm_num [mpA1])])
    not_delta_mpA1
    (by rw [if_pos (show rngZ 0 < 0.5 by norm_num [rngZ])]
        exact congrArg some sampleBsdf_A1)
    not_null_100
    (by norm_num [stR0])

/-- With an empty lights list, sample_lights reaches the usize underflow of
sample_uniform (size - 1 with size 0) and the out-of-bounds light lookup: the
model returns none (the Rust execution panics). -/
theorem sample_lights_empty (scene : Scene) (position : Vec3) (rl rel : ℝ) (ruv : Vec2)
    (h : scene.lights = []) :
    scene.sample_lights position rl rel ruv = none := by
  simp only [Scene.sample_lights, sample_uniform, h, List.length_nil]
  rfl

/-- Claim C1 (refuted: code bug).  The claim states that shade_raytrace
guards against zero lights before MIS light sampling and falls back to
BSDF-only sampling.  There is no such guard: on a scene whose lights list is
empty, any non-delta surface event (and any in-medium event) whose strategy
coin lands on light sampling calls sample_lights, which underflows
`size - 1` in sample_uniform and indexes the empty lights vector — modelled
as the panic outcome. -/
theorem c1_theorem (env : TraceEnv) (rng : ℕ → ℝ) (st : RayState)
    (intersection : BvhIntersection) (k : ℕ) (vol : MaterialPoint)
    (rest : List MaterialPoint)
    (hl : env.scene.lights = []) :
    (¬ ((env.scene.eval_material intersection).opacity < 1 ∧
        (env.scene.eval_material intersection).opacity ≤ rng k) →
      ¬ is_delta (env.scene.eval_material intersection) →
      (0.5 : ℝ) ≤ rng (if (env.scene.eval_material intersection).opacity < 1 then k + 1
        else k) →
      raySurface env rng st intersection k = .panic) ∧
    (st.volume_stack = vol :: rest → (0.5 : ℝ) ≤ rng k →
      rayVolume env rng st intersection k = .panic) := by
  constructor
  · intro hop hnd hcoin
    simp only [raySurface]
    rw [if_neg hop, if_pos hnd, if_neg (not_lt.mpr hcoin)]
    rw [sample_lights_empty]
    exact hl
  · intro hstack hcoin
    simp only [rayVolume, hstack]
    rw [if_neg (not_lt.mpr hcoin)]
    rw [sample_lights_empty]
    exact hl

/-- Initial shade_raytrace state on rayB (which hits the opaque emissive
instance immediately). -/
def stRB : RayState :=
  { radiance := zero3, weight := one3, volume_stack := [], bounce := 0, hit_alpha := 0,
    ray := rayB, k := 0 }

/-- Claim C1 counterexample: on the concrete scene with no lights, a single
shade_raytrace iteration whose strategy coin (0.6) lands on light sampling
panics instead of falling back to BSDF sampling. -/
theorem c1_counterexample :
    sceneA.lights = [] ∧ shade_raytrace envA paramsB rayB rngH 1 = .panicked := by
  refine ⟨rfl, ?_⟩
  have h1 : shadeRaytraceStep envA rngH stRB = raySurface envA rngH stRB interA1 stRB.k := by
    simp only [shadeRaytraceStep]
    rw [show envA.intersect stRB.ray = interA1 by
      show intersectA stRB.ray = interA1
      simp only [intersectA]
      rw [if_neg (show ¬ stRB.ray.origin.z = 0 by norm_num [stRB, rayB, Ray.new])]]
    rw [if_neg (show ¬¬(interA1.hit = true) from fun h => h rfl)]
    rw [show stRB.volume_stack = ([] : List MaterialPoint) from rfl]
  have hstep : shadeRaytraceStep envA rngH stRB = .panic := by
    rw [h1]
    simp only [raySurface]
    rw [show envA.scene = sceneA from rfl, evalMaterial_A1]
    rw [if_neg (show ¬ (mpA1.opacity < 1 ∧ mpA1.opacity ≤ rngH stRB.k) by norm_num [mpA1])]
    rw [if_pos (show stRB.bounce = 0 from rfl)]
    rw [if_pos not_delta_mpA1]
    rw [if_neg (show ¬ mpA1.opacity < 1 by norm_num [mpA1])]
    rw [if_neg (show ¬ rngH stRB.k < 0.5 by norm_num [rngH])]
    rw [sample_lights_empty]
    rfl
  show shadeRaytraceLoop envA paramsB rngH (0 + 1) stRB = .panicked
  rw [shadeRaytraceLoop_succ]
  rw [if_pos (show stRB.bounce < paramsB.bounces by
    norm_num [stRB, paramsB, RaytraceParams.default])]
  rw [hstep]

/-- Claim C1 witness: the amended statement applied at the concrete
empty-lights scene, surface conjunct. -/
theorem c1_witness :
    envA.scene.lights = [] ∧ raySurface envA rngH stR0 interA1 0 = .panic := by
  refine ⟨rfl, ?_⟩
  exact (c1_theorem envA rngH stR0 interA1 0 MaterialPoint.default [] rfl).1
    (by rw [show envA.scene = sceneA from rfl, evalMaterial_A1]; norm_num [mpA1])
    (by rw [show envA.scene = sceneA from rfl, evalMaterial_A1]; exact not_delta_mpA1)
    (by norm_num [rngH])
